import Mathlib

/-!
# Verification of the `capella-rm-bridge` change-set calculation engine

This file gives a shallow embedding, in Lean 4, of the change-set
calculation core of the `capella-rm-bridge` repository
(`capella_rm_bridge/changeset/change.py`, `find.py`, `__init__.py`) and
proves, or refutes, the frozen claims about it.

The embedding mirrors the Python source:

* snapshot documents (`TrackerSnapshot`, work items, requirement types,
  data types) become Lean structures whose optional keys become `Option`
  fields;
* the Capella model objects consumed through the query interface
  (`CapellaModule`, `Folder`, `Requirement`, `CapellaTypesFolder`, ...)
  become read-only Lean structures;
* the action documents produced by `TrackerChange` become the `Action`
  structure (a `parent` reference plus the `modify`/`extend`/`delete`
  operation groups, a key being absent encoded as the empty list, which
  is faithful because the source never leaves an empty group behind);
* the mutable `TrackerChange` instance state becomes an explicit state
  record `TCState` threaded through an `ExceptT PyErr (StateM TCState)`
  monad, so that Python exceptions propagate while the state mutations
  performed before the raise survive, exactly as in CPython;
* Python's aliasing of the staged per-folder deletion actions
  (`TrackerChange._req_deletions` maps a child's UUID to the very dict
  object that was appended to `actions`) is modelled by addressing each
  staged base action by the UUID of its `parent` reference: the mutable
  delete groups live in `TCState.del_map` and are written back into the
  emitted action list at the end of `calculate_change`, before the
  clean-up loop runs.  This is observationally equivalent because the
  source only reads those groups inside `invalidate_deletion` and in the
  final clean-up loop.
-/

namespace RMBridge

/-- Python exceptions raised by the changeset core, together with the
built-in exceptions that can escape it.  The payload is the single
`args[0]` message where one exists. -/
inductive PyErr where
  | invalidTrackerConfig (msg : String)
  | missingCapellaModule (msg : String)
  | invalidSnapshotModule (msg : String)
  | invalidWorkItemType (msg : String)
  | invalidFieldValue (msg : String)
  | invalidAttributeDefinition (msg : String)
  | keyError
  | valueError
  | attributeError (msg : String)
deriving DecidableEq, Repr

/-- `capellambse.decl` addressing: a concrete UUID reference to an
existing model object, or a symbolic `Promise` token resolved later by
the apply step. -/
inductive Ref where
  | uuid (u : String)
  | promise (id : String)
deriving DecidableEq, Repr

/-- A primitive snapshot value (`actiontypes.Primitive`): the payloads a
work item's `attributes` mapping can carry.  Python's `datetime` values
are abstracted as an integer timestamp and floats as rationals; enum
values are lists of option identifiers (strings), which is the shape the
snapshot format uses. -/
inductive SnapValue where
  | int (n : Int)
  | float (q : Rat)
  | str (s : String)
  | bool (b : Bool)
  | date (t : Int)
  | vlist (xs : List String)
  | pynone
deriving DecidableEq, Repr

/-- A value stored under a key of an action's `modify` group. -/
inductive MVal where
  | s (x : String)
  | r (x : Ref)
  | b (x : Bool)
  | v (x : SnapValue)
  | refs (xs : List Ref)
deriving DecidableEq, Repr

/-- Create-descriptor for an `EnumValue`
(cf. `TrackerChange.data_type_create_action`). -/
structure EnumValueCreate where
  identifier : String
  long_name : String
  promise_id : String
deriving DecidableEq, Repr

/-- Create-descriptor for an `EnumerationDataTypeDefinition`
(cf. `TrackerChange.data_type_create_action`); `type` is the `_type`
key. -/
structure DataTypeCreate where
  identifier : String
  long_name : String
  values : List EnumValueCreate
  promise_id : String
  type : String
deriving DecidableEq, Repr

/-- Create-descriptor for an `AttributeDefinition` or
`AttributeDefinitionEnumeration`
(cf. `TrackerChange.attribute_definition_create_action`); `data_type`
and `multi_valued` are only set for the Enumeration flavour. -/
structure AttrDefCreate where
  identifier : String
  long_name : String
  data_type : Option Ref
  multi_valued : Option Bool
  type : String
  promise_id : String
deriving DecidableEq, Repr

/-- Create-descriptor for a `RequirementType`
(cf. `TrackerChange.requirement_type_create_action`). -/
structure ReqTypeCreate where
  identifier : String
  long_name : String
  promise_id : String
  attribute_definitions : List AttrDefCreate
deriving DecidableEq, Repr

/-- Create-descriptor for the `CapellaTypesFolder`
(cf. `TrackerChange.requirement_types_folder_create_action`). -/
structure TypesFolderCreate where
  long_name : String
  identifier : String
  data_type_definitions : List DataTypeCreate
  requirement_types : List ReqTypeCreate
deriving DecidableEq, Repr

/-- Payload of an AttributeValue create-descriptor: the raw primitive
(`builder.value`) or, for enumerations with resolved options, the list
of references (`values`). -/
inductive AttrValPayload where
  | value (v : SnapValue)
  | refs (xs : List Ref)
deriving DecidableEq, Repr

/-- Create-descriptor for an `(Enumeration)AttributeValue`
(cf. `TrackerChange.attribute_value_create_action`): the `_type` key
(lower-cased definition type), the `definition` reference and the
payload stored under `key` (`"value"` or `"values"`). -/
structure AttrValCreate where
  type : String
  definition : Ref
  key : String
  value : AttrValPayload
deriving DecidableEq, Repr

/-- Core (non-recursive) fields of a Requirement/Folder
create-descriptor (cf. `TrackerChange.yield_requirements_create_actions`):
`text` is only set when truthy, `attributes` when non-empty, `type` when
the item declares a requirement type. -/
structure ReqCreateCore where
  long_name : String
  identifier : String
  text : Option String
  attributes : List AttrValCreate
  type : Option Ref
deriving DecidableEq, Repr

mutual
/-- Create-descriptor for a Requirement or Folder; `requirements` and
`folders` hold the child descriptors/references of a Folder-kind item
(the source deletes these keys again when empty, so `nil` encodes the
absent key). -/
inductive ReqCreate where
  | mk (core : ReqCreateCore) (requirements : ChildEntries) (folders : ChildEntries)

/-- One entry of a `requirements`/`folders` list inside a
create-descriptor or an `extend` group: a nested create-descriptor for a
new child, or a UUID reference to an already existing child. -/
inductive ChildEntry where
  | create (c : ReqCreate)
  | ref (r : Ref)

/-- A list of `ChildEntry` (a plain inductive list so that equality
remains derivable through the mutual recursion). -/
inductive ChildEntries where
  | nil
  | cons (hd : ChildEntry) (tl : ChildEntries)
end

deriving instance DecidableEq for ReqCreate, ChildEntry, ChildEntries
deriving instance Repr for ReqCreate, ChildEntry, ChildEntries

/-- Convert a Lean list of child entries into the embedded list type. -/
def ChildEntries.ofList : List ChildEntry → ChildEntries
  | [] => .nil
  | e :: es => .cons e (ChildEntries.ofList es)

/-- Convert the embedded child-entry list back into a Lean list. -/
def ChildEntries.toList : ChildEntries → List ChildEntry
  | .nil => []
  | .cons e es => e :: ChildEntries.toList es

@[simp] theorem ChildEntries.toList_ofList (l : List ChildEntry) :
    (ChildEntries.ofList l).toList = l := by
  induction l with
  | nil => rfl
  | cons e es ih => simp [ChildEntries.ofList, ChildEntries.toList, ih]

/-- Field accessor for the single-constructor inductive `ReqCreate`. -/
def ReqCreate.core : ReqCreate → ReqCreateCore
  | .mk c _ _ => c

/-- The `requirements` child list of a create-descriptor. -/
def ReqCreate.requirements : ReqCreate → ChildEntries
  | .mk _ r _ => r

/-- The `folders` child list of a create-descriptor. -/
def ReqCreate.folders : ReqCreate → ChildEntries
  | .mk _ _ f => f

/-- One entry of an `extend` group; every key of an `extend` group maps
to a homogeneous list, the sum type merely unites the per-key payload
shapes of the source's dict documents. -/
inductive ExtendEntry where
  | child (c : ChildEntry)
  | attr (a : AttrValCreate)
  | ad (d : AttrDefCreate)
  | dt (d : DataTypeCreate)
  | rt (r : ReqTypeCreate)
  | tf (f : TypesFolderCreate)
  | ev (e : EnumValueCreate)
deriving DecidableEq, Repr

/-- One action document of the change set: the addressing `parent`
reference plus the three operation groups.  A key that the Python dict
does not contain is the empty list (the source never stores an empty
group: emission sites only add non-empty groups and
`invalidate_deletion` deletes keys it empties). -/
structure Action where
  parent : Ref
  modify : List (String × MVal)
  extend : List (String × List ExtendEntry)
  delete : List (String × List Ref)
deriving DecidableEq, Repr

/-- `set(action) == {"parent"}`: no operation group is populated. -/
def Action.parentOnly (a : Action) : Bool :=
  a.modify.isEmpty && a.extend.isEmpty && a.delete.isEmpty

/-- Lookup in an insertion-ordered association list (Python `dict`
access). -/
def alGet {α : Type} : List (String × α) → String → Option α
  | [], _ => none
  | (k, v) :: kvs, key => if k = key then some v else alGet kvs key

/-- `d[key] = v` on an insertion-ordered association list: replaces the
value in place if the key exists, appends otherwise (Python `dict`
assignment semantics). -/
def alSet {α : Type} : List (String × α) → String → α → List (String × α)
  | [], key, v => [(key, v)]
  | (k, w) :: kvs, key, v =>
      if k = key then (k, v) :: kvs else (k, w) :: alSet kvs key v

/-- `del d[key]` on an association list. -/
def alDel {α : Type} : List (String × α) → String → List (String × α)
  | [], _ => []
  | (k, w) :: kvs, key => if k = key then kvs else (k, w) :: alDel kvs key

/-- `d[key].append(x)` where a missing key first becomes the empty list
(the `_add_action_safely`/`_deep_update` pattern of the source). -/
def alAppend {α : Type} (kvs : List (String × List α)) (key : String)
    (x : α) : List (String × List α) :=
  match alGet kvs key with
  | some xs => alSet kvs key (xs ++ [x])
  | none => kvs ++ [(key, [x])]

/-- Merge a second association list into a first one, key by key, values
of existing keys being replaced in place (`_deep_update` at one nesting
level, which is how the source always uses it on the operation
groups). -/
def alMerge {α : Type} (kvs overrides : List (String × α)) :
    List (String × α) :=
  overrides.foldl (fun acc (kv : String × α) => alSet acc kv.1 kv.2) kvs

/-! ## The Capella model, at the query-interface boundary

These structures embed the ReqIF model objects of the target model as
the changeset core reads them: stable `uuid`, external `identifier`,
display fields, and the links the source dereferences.  The model is
read-only input during the whole diff. -/

/-- An `EnumValue` under an `EnumerationDataTypeDefinition`. -/
structure MEnumValue where
  uuid : String
  identifier : String
  long_name : String
deriving DecidableEq, Repr

/-- An `EnumerationDataTypeDefinition` inside the types folder. -/
structure MDataTypeDef where
  uuid : String
  identifier : String
  long_name : String
  values : List MEnumValue
deriving DecidableEq, Repr

/-- An `AttributeDefinition` (plain, `enum = false`) or
`AttributeDefinitionEnumeration` (`enum = true`); `data_type` is the
identifier of the linked `EnumerationDataTypeDefinition`, `none` when
the link is unset. -/
structure MAttrDef where
  uuid : String
  identifier : String
  long_name : String
  enum : Bool
  data_type : Option String
  multi_valued : Bool
deriving DecidableEq, Repr

/-- A `RequirementType` inside the types folder. -/
structure MReqType where
  uuid : String
  identifier : String
  long_name : String
  attribute_definitions : List MAttrDef
deriving DecidableEq, Repr

/-- The `CapellaTypesFolder` of a module. -/
structure MTypesFolder where
  uuid : String
  identifier : String
  long_name : String
  data_type_definitions : List MDataTypeDef
  requirement_types : List MReqType
deriving DecidableEq, Repr

/-- An `AttributeValue` owned by a Requirement/Folder: `definition` is
the identifier of its `AttributeDefinition`, `enum` marks an
`EnumerationValueAttribute`, whose selected options' identifiers are in
`values`; non-enum attributes carry their current primitive in
`value`. -/
structure MAttrVal where
  uuid : String
  definition : String
  enum : Bool
  value : SnapValue
  values : List String
deriving DecidableEq, Repr

/-- Non-recursive fields of a model Requirement or Folder.  `type_id` is
the identifier of the object's `RequirementType` (the source
dereferences `req.type.identifier`, so embedded work items always carry
a type).  `parent_uuid` is the UUID of the owning module or folder;
`capellambse` object comparisons (`req.parent != self.req_module`) are
embedded as comparisons of these UUIDs. -/
structure MWorkItemCore where
  uuid : String
  identifier : String
  long_name : String
  text : String
  type_id : String
  attributes : List MAttrVal
  folder : Bool
  parent_uuid : String

mutual
/-- A model Requirement (`folder = false`, both child lists empty) or
Folder (`folder = true`) with its child requirements and folders. -/
inductive MWorkItem where
  | mk (core : MWorkItemCore) (requirements : MWorkItems)
       (folders : MWorkItems)

/-- A list of model work items (a plain inductive list, so that the
subtree search recurses structurally). -/
inductive MWorkItems where
  | nil
  | cons (hd : MWorkItem) (tl : MWorkItems)
end

/-- The core fields of a model work item. -/
def MWorkItem.core : MWorkItem → MWorkItemCore
  | .mk c _ _ => c

/-- Direct child Requirements of a model Folder. -/
def MWorkItem.requirements : MWorkItem → MWorkItems
  | .mk _ r _ => r

/-- Direct child Folders of a model Folder. -/
def MWorkItem.folders : MWorkItem → MWorkItems
  | .mk _ _ f => f

/-- Build an embedded work-item list from a Lean list. -/
def MWorkItems.ofList : List MWorkItem → MWorkItems
  | [] => .nil
  | x :: xs => .cons x (MWorkItems.ofList xs)

/-- Convert an embedded work-item list into a Lean list. -/
def MWorkItems.toList : MWorkItems → List MWorkItem
  | .nil => []
  | .cons x xs => x :: MWorkItems.toList xs

/-- A `reqif.CapellaModule` with its types folders and its direct child
requirements and folders. -/
structure MModule where
  uuid : String
  identifier : String
  long_name : String
  types_folders : List MTypesFolder
  requirements : MWorkItems
  folders : MWorkItems

/-- The `MelodyModel`: the modules it contains, plus the `repr` of its
`info` object, which only feeds the `MissingCapellaModule` message. -/
structure MelodyModel where
  info_repr : String
  modules : List MModule

/-! ## Snapshot documents (`actiontypes`) -/

/-- One entry of a data type's `values` list (`DataTypeValue`). -/
structure SnapEnumValue where
  id : String
  long_name : String
deriving DecidableEq, Repr

/-- A `data_types` entry (`act.DataType`). -/
structure SnapDataType where
  long_name : String
  values : List SnapEnumValue
deriving DecidableEq, Repr

/-- An attribute definition of a snapshot requirement type
(`act.AttributeDefinition` / `act.EnumAttributeDefinition`);
`multi_values` embeds the optional `multi_values` key. -/
structure SnapAttrDef where
  long_name : String
  type : String
  multi_values : Option Bool
deriving DecidableEq, Repr

/-- A `requirement_types` entry (`act.RequirementType`). -/
structure SnapReqType where
  long_name : String
  attributes : List (String × SnapAttrDef)
deriving DecidableEq, Repr

/-- Non-recursive fields of a snapshot work item (`act.WorkItem`):
optional keys of the `TypedDict` become `Option` fields; `attributes`
is the (possibly empty) attributes mapping, which is indistinguishable
from an absent key everywhere the source reads it. -/
structure SnapItemCore where
  id : String
  long_name : String
  text : Option String
  type : Option String
  attributes : List (String × SnapValue)
deriving DecidableEq, Repr

mutual
/-- A snapshot work item; `children = some _` embeds the presence of the
`children` key (even an empty list marks the item as Folder-kind). -/
inductive SnapItem where
  | mk (core : SnapItemCore) (children : Option SnapItems)

/-- A list of snapshot work items (a plain inductive list, so that the
tree walk recurses structurally). -/
inductive SnapItems where
  | nil
  | cons (hd : SnapItem) (tl : SnapItems)
end

/-- The core fields of a snapshot work item. -/
def SnapItem.core : SnapItem → SnapItemCore
  | .mk c _ => c

/-- The optional `children` list of a snapshot work item. -/
def SnapItem.children : SnapItem → Option SnapItems
  | .mk _ cs => cs

/-- Build an embedded snapshot-item list from a Lean list. -/
def SnapItems.ofList : List SnapItem → SnapItems
  | [] => .nil
  | x :: xs => .cons x (SnapItems.ofList xs)

/-- A tracker snapshot (`act.TrackerSnapshot`): `id` is optional so that
the missing-id error path can be exercised. -/
structure TrackerSnapshot where
  id : Option String
  long_name : Option String
  data_types : List (String × SnapDataType)
  requirement_types : List (String × SnapReqType)
  items : List SnapItem

/-- A tracker config (`act.TrackerConfig`); only the `capella-uuid` key
is read by the changeset core, optional so that the
`InvalidTrackerConfig` path can be exercised. -/
structure TrackerConfig where
  capella_uuid : Option String

/-! ## Python `repr` of the values that reach error messages -/

/-- `repr` of a Python string (the embedded strings contain no quotes or
escapes, where Python uses single quotes). -/
def pyReprStr (s : String) : String := "'" ++ s ++ "'"

/-- Python's `str.lower()` for the ASCII definition-type names it is
applied to (kernel-reducible, unlike `String.toLower`). -/
def pyLower (s : String) : String :=
  String.mk (s.data.map (fun c =>
    if c.isUpper then Char.ofNat (c.toNat + 32) else c))

/-- `repr` of a primitive snapshot value. -/
def pyReprValue : SnapValue → String
  | .int n => toString n
  | .float q => toString q
  | .str s => pyReprStr s
  | .bool b => if b then "True" else "False"
  | .date t => toString t
  | .vlist xs => "[" ++ String.intercalate ", " (xs.map pyReprStr) ++ "]"
  | .pynone => "None"

/-! ## The Object Finder (`changeset/find.py`)

The revision of `find.py` in the source tree defines the `ReqFinder`
class whose `_get` method is the one place the identifier-based lookup
logic lives.  The module-level helpers `find.find_by` and
`find.find_by_identifier` that `change.py` calls are a thin functional
layer over the same search: their defining revision is not in the
source tree, so they are modelled from the spec below. -/

/-- Errors of the external single-match query: a not-found condition
(Python `KeyError`) and the distinct condition signalled when several
objects match a supposedly-unique key. -/
inductive LookupErr where
  | notFound
  | multipleMatches
deriving DecidableEq, Repr

/-- Modelled from the spec: the model query's `by_<attr>(value,
single=True)` accessor, at the interface boundary of §6/§4.1 — it
raises the not-found condition (`KeyError`) on zero matches and an
error distinct from not-found on more than one match for a unique
key. -/
def byAttrSingle {α : Type} (ms : List α) : Except LookupErr α :=
  match ms with
  | [x] => .ok x
  | [] => .error .notFound
  | _ => .error .multipleMatches

/-- `ReqFinder._get` from `find.py`: run the scoped search (`objs`
restricted by the match predicate), take the unique result, and convert
only the not-found condition (`except KeyError`) into the `None`
sentinel; any other error propagates. -/
def ReqFinder_get {α : Type} (objs : List α) (matchesKey : α → Bool) :
    Except LookupErr (Option α) :=
  match byAttrSingle (objs.filter matchesKey) with
  | .ok x => .ok (some x)
  | .error .notFound => .ok none
  | .error e => .error e

/-- Modelled from the spec: `find.find_by`/`find.find_by_identifier`
return the unique matching object or the not-found sentinel.  The
duplicate-key error branch is not modelled here (every theorem below
operates on models whose identifiers and UUIDs are unique, where both
behaviours agree); zero or several matches give `none`. -/
def findUnique {α : Type} (l : List α) : Option α :=
  match l with
  | [x] => some x
  | _ => none

mutual
/-- All work items of the subtree rooted at a model work item, the root
included. -/
def MWorkItem.subtree : MWorkItem → List MWorkItem
  | .mk c rs fs => .mk c rs fs :: subtreeList rs ++ subtreeList fs

/-- All work items of the subtrees rooted at the given items. -/
def subtreeList : MWorkItems → List MWorkItem
  | .nil => []
  | .cons w ws => w.subtree ++ subtreeList ws
end

/-- All work items of the model (the global search scope used when
`change.py` matches snapshot items by identifier). -/
def allWorkItems (m : MelodyModel) : List MWorkItem :=
  m.modules.foldr
    (fun md acc => subtreeList md.requirements ++ subtreeList md.folders
      ++ acc) []

/-- `find.find_by(model, value, "CapellaModule", attr="uuid")`. -/
def findModuleByUuid (m : MelodyModel) (u : String) : Option MModule :=
  findUnique (m.modules.filter (fun md => md.uuid = u))

/-- `find.find_by_identifier(model, id, "Requirement"/"Folder")`:
global search over all work items of the given kind. -/
def findWorkItem (m : MelodyModel) (idf : String) (folderKind : Bool) :
    Option MWorkItem :=
  findUnique ((allWorkItems m).filter
    (fun w => w.core.folder = folderKind && w.core.identifier = idf))

/-- `find.find_by_identifier(model, id, "CapellaTypesFolder",
below=req_module)`. -/
def findTypesFolder (md : MModule) (idf : String) : Option MTypesFolder :=
  findUnique (md.types_folders.filter (fun f => f.identifier = idf))

/-- The `EnumerationDataTypeDefinition` search scope: below the given
types folder, or the whole model when no folder was found (`below=None`
searches globally). -/
def dtdefScope (m : MelodyModel) (below : Option MTypesFolder) :
    List MDataTypeDef :=
  match below with
  | some f => f.data_type_definitions
  | none => m.modules.foldr
      (fun md acc =>
        md.types_folders.foldr (fun f a => f.data_type_definitions ++ a) []
          ++ acc) []

/-- `find.find_by_identifier(model, id, "EnumerationDataTypeDefinition",
below=reqt_folder)`. -/
def findDataTypeDef (m : MelodyModel) (below : Option MTypesFolder)
    (idf : String) : Option MDataTypeDef :=
  findUnique ((dtdefScope m below).filter (fun d => d.identifier = idf))

/-- The `RequirementType` search scope below an optional types
folder. -/
def reqTypeScope (m : MelodyModel) (below : Option MTypesFolder) :
    List MReqType :=
  match below with
  | some f => f.requirement_types
  | none => m.modules.foldr
      (fun md acc =>
        md.types_folders.foldr (fun f a => f.requirement_types ++ a) []
          ++ acc) []

/-- `find.find_by_identifier(model, id, "RequirementType",
below=reqt_folder)`. -/
def findReqType (m : MelodyModel) (below : Option MTypesFolder)
    (idf : String) : Option MReqType :=
  findUnique ((reqTypeScope m below).filter (fun t => t.identifier = idf))

/-- `find.find_by_identifier(model, id, "EnumValue", below=edtdef or
reqt_folder)`. -/
def findEnumValue (m : MelodyModel) (belowDtdef : Option MDataTypeDef)
    (belowFolder : Option MTypesFolder) (idf : String) :
    Option MEnumValue :=
  let scope : List MEnumValue :=
    match belowDtdef with
    | some d => d.values
    | none => (dtdefScope m belowFolder).foldr
        (fun d acc => d.values ++ acc) []
  findUnique (scope.filter (fun v => v.identifier = idf))

/-- `find.find_by_identifier(model, id, deftype, below=reqt_folder)` for
`deftype` either `"AttributeDefinition"` or
`"AttributeDefinitionEnumeration"` (`wantEnum`). -/
def findAttrDef (m : MelodyModel) (below : Option MTypesFolder)
    (idf : String) (wantEnum : Bool) : Option MAttrDef :=
  let scope := (reqTypeScope m below).foldr
    (fun t acc => t.attribute_definitions ++ acc) []
  findUnique (scope.filter
    (fun d => d.enum = wantEnum && d.identifier = idf))

/-- `self.model.by_uuid(ref.uuid)` as used by
`_populate_ev_deletions`, which only ever dereferences data-type
definitions. -/
def findDataTypeDefByUuid (m : MelodyModel) (u : String) :
    Option MDataTypeDef :=
  findUnique ((dtdefScope m none).filter (fun d => d.uuid = u))

/-! ## The `TrackerChange` state and monad -/

/-- The mutable instance state of one `TrackerChange` run.

`req_deletions` embeds `TrackerChange._req_deletions` as a mapping from
a staged child's UUID to the UUID inside the `parent` reference of the
staged base action (the Python dict maps to the action object itself;
the parent UUID is its unique address here).  `del_map` holds, per
staged base, the current contents of its `delete` group, which is the
only part of an emitted action the source ever mutates afterwards
(`invalidate_deletion`); a missing entry embeds a base whose `delete`
key was removed.  `staged_core` records each staged base as it was
yielded, so the final clean-up loop can re-evaluate
`set(action) == {"parent"}` against its immutable `modify`/`extend`
parts. -/
structure TCState where
  actions : List Action
  errors : List String
  location_changed : List String
  req_deletions : List (String × String)
  del_map : List (String × List (String × List Ref))
  staged_core : List (String × Action)
  ev_deletions : List String
  faulty_attribute_definitions : List String
deriving DecidableEq, Repr

/-- The empty initial state of `TrackerChange.__init__`. -/
def TCState.init : TCState :=
  ⟨[], [], [], [], [], [], [], []⟩

/-- The `TrackerChange` computation monad: Python exceptions as
`PyErr`, the instance attributes as state.  `ExceptT` over `StateM`
keeps the state accumulated before a raise, as CPython does. -/
abbrev TCM := ExceptT PyErr (StateM TCState)

/-- Run a `TCM` computation on a state. -/
def TCM.run {α : Type} (x : TCM α) (s : TCState) : Except PyErr α × TCState :=
  StateT.run (ExceptT.run x) s

/-- Run a stateless Python computation inside `TCM`: its result is
returned, its exception re-raised. -/
def liftE {α : Type} (x : Except PyErr α) : TCM α :=
  match x with
  | .ok a => pure a
  | .error e => throw e

/-- The attributes of `TrackerChange` that are fixed before the diff
walk starts: the model, the snapshot, the log-gathering flag, and the
results of `check_requirements_module` / the types-folder lookup. -/
structure TCCtx where
  model : MelodyModel
  tracker : TrackerSnapshot
  gather_logs : Bool
  req_module : MModule
  reqt_folder : Option MTypesFolder

/-- `TrackerChange._handle_user_error`: collect the message when
gathering, log (invisibly to this embedding) otherwise. -/
def handle_user_error (ctx : TCCtx) (msg : String) : TCM Unit := do
  if ctx.gather_logs then
    modify fun s => { s with errors := s.errors ++ [msg] }

/-- Add an identifier to the location-changed set. -/
def addLocationChanged (idf : String) : TCM Unit :=
  modify fun s =>
    if idf ∈ s.location_changed then s
    else { s with location_changed := s.location_changed ++ [idf] }

/-- `TrackerChange.invalidate_deletion`: remove the requirement's
reference from the staged deletion of its old parent.  Only the
not-found conditions (`KeyError`) are tolerated; removing a reference
that is no longer in a still-existing list raises `ValueError`
(`list.remove`), which propagates. -/
def invalidate_deletion (req : MWorkItem) : TCM Unit := do
  let key := if req.core.folder then "folders" else "requirements"
  let ref := Ref.uuid req.core.uuid
  tryCatch
    (do
      let s ← get
      match alGet s.req_deletions req.core.uuid with
      | none => throw .keyError
      | some parentU =>
        match alGet s.del_map parentU with
        | none => throw .keyError
        | some groups =>
          match alGet groups key with
          | none => throw .keyError
          | some refs =>
            if ref ∈ refs then
              let refs' := refs.erase ref
              let groups' :=
                if refs'.isEmpty then alDel groups key
                else alSet groups key refs'
              let delMap' :=
                if groups'.isEmpty then alDel s.del_map parentU
                else alSet s.del_map parentU groups'
              set { s with del_map := delMap' }
            else
              throw .valueError)
    (fun e => match e with
      | .keyError => pure ()
      | e => throw e)

/-- `make_requirement_delete_actions`: references to the children of
`req` behind `key` whose identifier is not in `child_ids`. -/
def make_requirement_delete_actions (req : MWorkItem)
    (child_ids : List String) (key : String) : List Ref :=
  (((if key = "folders" then req.folders
     else req.requirements).toList.filter
    (fun c => !child_ids.contains c.core.identifier)).map
    (fun c => Ref.uuid c.core.uuid))

/-- `TrackerChange.req_delete_actions`: references to the module's
direct children behind `attr_name` whose identifier was not visited. -/
def req_delete_actions (md : MModule) (visited : List String)
    (attr_name : String) : List Ref :=
  (((if attr_name = "folders" then md.folders
     else md.requirements).toList.filter
    (fun c => !visited.contains c.core.identifier)).map
    (fun c => Ref.uuid c.core.uuid))

/-- The external `helpers.repair_html` collaborator, a pure rich-text
normalization (spec §6); its internals are out of scope, the embedding
takes it as the identity. -/
def repair_html (s : String) : String := s

/-- `_compare_simple_attributes(req, item, filter=("id", "type",
"attributes", "children"))` for a work item: of the snapshot keys, only
`long_name` and (when present) `text` survive the filter; `text` is
compared through `repair_html` but stored unconverted. -/
def compare_simple_attributes (req : MWorkItem) (item : SnapItemCore) :
    List (String × MVal) :=
  (if req.core.long_name ≠ item.long_name
    then [("long_name", MVal.s item.long_name)] else [])
  ++ (match item.text with
      | some t =>
        if req.core.text ≠ repair_html t then [("text", MVal.s t)] else []
      | none => [])

/-- `_blacklisted`: the `("Type", "Folder")` marker pairs that are
silently skipped. -/
def blacklisted (name : String) (v : SnapValue) : Bool :=
  match v with
  | .pynone => false
  | .str s => name = "Type" && s = "Folder"
  | .vlist xs => xs.all (fun s => name = "Type" && s = "Folder")
  | _ => false

/-- `_ATTR_VALUE_DEFAULT_MAP` type check: does the raw value's shape
match the declared kind?  Python's `bool` is a subclass of `int`, so a
boolean passes the `Integer` check; an unknown kind only logs a warning
and passes. -/
def matchesDefaultType (deftype : String) (v : SnapValue) : Bool :=
  if deftype = "Boolean" then
    match v with | .bool _ => true | _ => false
  else if deftype = "Date" || deftype = "Datetime" then
    match v with | .date _ => true | _ => false
  else if deftype = "Enum" then
    match v with | .vlist _ => true | _ => false
  else if deftype = "Float" then
    match v with | .float _ => true | _ => false
  else if deftype = "Integer" then
    match v with | .int _ => true | .bool _ => true | _ => false
  else if deftype = "String" then
    match v with | .str _ => true | _ => false
  else true

/-- `default_type.__name__` for the error message of a failed type
check. -/
def defaultTypeName (deftype : String) : String :=
  if deftype = "Boolean" then "bool"
  else if deftype = "Date" || deftype = "Datetime" then "datetime"
  else if deftype = "Enum" then "list"
  else if deftype = "Float" then "float"
  else if deftype = "Integer" then "int"
  else "str"

/-! ## The Attribute Reconciler -/

/-- `_AttributeValueBuilder`. -/
structure AttributeValueBuilder where
  deftype : String
  key : String
  value : SnapValue
deriving DecidableEq, Repr

/-- `TrackerChange.check_attribute_value_is_valid`: integrity checks on
one attribute value; raises `InvalidFieldValue` on a shape mismatch, a
missing enum data type, or an enum value list sharing no element with
the declared options. -/
def check_attribute_value_is_valid (ctx : TCCtx) (id : String)
    (value : SnapValue) (req_type_id : String) :
    Except PyErr AttributeValueBuilder := do
  let some reqtype := alGet ctx.tracker.requirement_types req_type_id
    | throw .keyError
  let some adef := alGet reqtype.attributes id
    | throw .keyError
  let deftype := adef.type
  if !matchesDefaultType deftype value then
    throw (.invalidFieldValue
      ("Invalid field found: " ++ pyReprStr id
        ++ ". Not matching expected types: " ++ pyReprValue value
        ++ " should be of type " ++ pyReprStr (defaultTypeName deftype)))
  if deftype = "Enum" then
    let some datatype := alGet ctx.tracker.data_types id
      | throw (.invalidFieldValue
          ("Invalid field found: " ++ pyReprStr id
            ++ ". Missing its datatype definition in `data_types`."))
    let options := datatype.values.map (fun v => v.id)
    match value with
    | .vlist xs =>
        if xs.all (fun x => !options.contains x) then
          throw (.invalidFieldValue
            ("Invalid field found: values " ++ pyReprValue value
              ++ " for " ++ pyReprStr id))
        else
          pure ⟨deftype, "values", value⟩
    | _ => throw .keyError
  else
    pure ⟨deftype, "value", value⟩

/-- `TrackerChange.attribute_value_create_action`: build the
create-descriptor for one `(Enumeration)AttributeValue`, resolving the
definition and (for enums) every option either to an existing object or
to an individual `Promise`.  The method reads, but never writes, the
`_evdeletions` and `_faulty_attribute_definitions` instance sets, so it
is embedded as this pure core plus the state-reading wrapper below. -/
def attribute_value_create_core (ctx : TCCtx) (ev_deletions : List String)
    (faulty : List String) (id : String) (value : SnapValue)
    (req_type_id : String) : Except PyErr AttrValCreate := do
  let builder ← check_attribute_value_is_valid ctx id value req_type_id
  let enumKind := builder.deftype = "Enum"
  let deftype := if enumKind then "AttributeDefinitionEnumeration"
    else "AttributeDefinition"
  let values ←
    if enumKind then do
      let edtdef := findDataTypeDef ctx.model ctx.reqt_folder id
      match builder.value with
      | .vlist xs =>
          pure (xs.map (fun evid =>
            let enumvalue :=
              findEnumValue ctx.model edtdef ctx.reqt_folder evid
            match enumvalue with
            | none => Ref.promise ("EnumValue " ++ id ++ " " ++ evid)
            | some ev =>
                if ev_deletions.contains evid then
                  Ref.promise ("EnumValue " ++ id ++ " " ++ evid)
                else Ref.uuid ev.uuid))
      | _ => throw .keyError
    else
      pure ([] : List Ref)
  let attr_def_id := id ++ " " ++ req_type_id
  let definition := findAttrDef ctx.model ctx.reqt_folder attr_def_id enumKind
  let definition_ref ←
    match definition with
    | none =>
        let promise_id := deftype ++ " " ++ attr_def_id
        if faulty.contains promise_id then
          throw (.invalidFieldValue
            ("Invalid field found: No AttributeDefinition " ++ pyReprStr id
              ++ " promised."))
        else
          pure (Ref.promise promise_id)
    | some d => pure (Ref.uuid d.uuid)
  pure
    { type := pyLower builder.deftype
      definition := definition_ref
      key := builder.key
      value := if values.isEmpty then .value builder.value
               else .refs values }

/-- The monadic face of `attribute_value_create_action`. -/
def attribute_value_create_action (ctx : TCCtx) (id : String)
    (value : SnapValue) (req_type_id : String) : TCM AttrValCreate := do
  let s ← get
  liftE (attribute_value_create_core ctx s.ev_deletions
    s.faulty_attribute_definitions id value req_type_id)

/-- Result of `TrackerChange._check_attribute`. -/
inductive CheckRes where
  | brk
  | cont
  | ok
deriving DecidableEq, Repr

/-- `TrackerChange._check_attribute`: per-attribute admission control
against the snapshot schema; collects the per-item error messages. -/
def check_attribute (ctx : TCCtx) (id : String) (value : SnapValue)
    (req_type_id : String) (iitem_id : String) : TCM CheckRes := do
  if req_type_id = "" then
    handle_user_error ctx
      ("Invalid workitem '" ++ iitem_id
        ++ "'. Missing type but attributes found")
    pure .brk
  else if blacklisted id value then
    pure .cont
  else
    match alGet ctx.tracker.requirement_types req_type_id with
    | some reqtype_defs =>
        if (alGet reqtype_defs.attributes id).isNone then
          handle_user_error ctx
            ("Invalid workitem '" ++ iitem_id
              ++ "'. Invalid field found: field identifier '" ++ id
              ++ "' not defined in attributes of requirement type '"
              ++ req_type_id ++ "'")
          pure .cont
        else
          pure .ok
    | none => pure .ok

/-- `TrackerChange._try_create_attribute_value`: build one attribute
create-descriptor, converting an `InvalidFieldValue` into a collected
error (the attribute is skipped, nothing else is). -/
def try_create_attribute_value (ctx : TCCtx) (id : String)
    (value : SnapValue) (req_type_id : String) (iitem_id : String) :
    TCM (Option AttrValCreate) :=
  tryCatch
    (do
      let a ← attribute_value_create_action ctx id value req_type_id
      pure (some a))
    (fun e => match e with
      | .invalidFieldValue msg => do
          handle_user_error ctx
            ("Invalid workitem '" ++ iitem_id ++ "'. " ++ msg)
          pure none
      | e => throw e)

/-- `TrackerChange.attribute_value_mod_action`: compare one existing
attribute value against the snapshot; a difference yields a
modify-action addressed at the attribute value, else `None`.  A missing
definition or attribute raises `KeyError`, which the caller turns into
the create path. -/
def attribute_value_mod_action (ctx : TCCtx) (req : MWorkItem)
    (id : String) (value : SnapValue) (req_type_id : String) :
    Except PyErr (Option Action) := do
  let builder ← check_attribute_value_is_valid ctx id value req_type_id
  let enumKind := builder.deftype = "Enum"
  let attrdef := findAttrDef ctx.model ctx.reqt_folder
    (id ++ " " ++ req_type_id) enumKind
  let attr ←
    match attrdef with
    | none => throw .keyError
    | some d =>
        match req.core.attributes.filter
            (fun a => a.definition = d.identifier) with
        | [a] => pure a
        | _ => throw .keyError
  let some adef := attrdef | throw .keyError
  if attr.enum then do
    match value with
    | .vlist xs =>
        let actual := attr.values
        let toDelete := actual.filter (fun v => !xs.contains v)
        let toCreate := xs.filter (fun v => !actual.contains v)
        let differ := !toCreate.isEmpty || !toDelete.isEmpty
        let some dtid := adef.data_type
          | throw (.attributeError "data_type")
        let some dtdef := findDataTypeDef ctx.model ctx.reqt_folder dtid
          | throw (.attributeError "data_type")
        let optionIds := dtdef.values.map (fun v => v.identifier)
        let newRefs ← xs.dedup.mapM (fun v => do
          if optionIds.contains v then
            match dtdef.values.filter (fun ev => ev.identifier = v) with
            | [ev] => pure (Ref.uuid ev.uuid)
            | _ => throw .keyError
          else
            pure (Ref.promise ("EnumValue " ++ id ++ " " ++ v)))
        if differ then
          pure (some
            { parent := .uuid attr.uuid
              modify := [("values", .refs newRefs)]
              extend := []
              delete := [] })
        else
          pure none
    | _ => throw .keyError
  else
    if attr.value ≠ value then
      pure (some
        { parent := .uuid attr.uuid
          modify := [("value", .v value)]
          extend := []
          delete := [] })
    else
      pure none

/-! ## The Schema Reconciler -/

/-- `TrackerChange.data_type_create_action`: the create-descriptor for
an `EnumerationDataTypeDefinition`, every option carrying its own
deterministic `EnumValue <data-type-id> <option-id>` promise. -/
def data_type_create_action (data_type_id : String)
    (d : SnapDataType) : DataTypeCreate :=
  { identifier := data_type_id
    long_name := d.long_name
    values := d.values.map (fun v =>
      { identifier := v.id
        long_name := v.long_name
        promise_id := "EnumValue " ++ data_type_id ++ " " ++ v.id })
    promise_id := "EnumerationDataTypeDefinition " ++ data_type_id
    type := "EnumerationDataTypeDefinition" }

/-- `TrackerChange.attribute_definition_create_action`: create one
`AttributeDefinition(Enumeration)` descriptor; an Enum kind resolves its
data type to an existing definition or to the
`EnumerationDataTypeDefinition <id>` promise, and raises
`InvalidAttributeDefinition` (after recording the promise as faulty)
when the data type is not even declared in the snapshot. -/
def attribute_definition_create_action (ctx : TCCtx) (id : String)
    (item : SnapAttrDef) (req_type_id : String) : TCM AttrDefCreate := do
  let identifier := id ++ " " ++ req_type_id
  if item.type = "Enum" then do
    let cls := "AttributeDefinitionEnumeration"
    let etdef := findDataTypeDef ctx.model ctx.reqt_folder id
    let ref ←
      match etdef with
      | none => do
          let promise_id := "EnumerationDataTypeDefinition " ++ id
          if (alGet ctx.tracker.data_types id).isNone then do
            modify fun s =>
              if s.faulty_attribute_definitions.contains promise_id then s
              else { s with faulty_attribute_definitions :=
                s.faulty_attribute_definitions ++ [promise_id] }
            throw (.invalidAttributeDefinition
              ("Invalid " ++ cls ++ " found: " ++ pyReprStr id
                ++ ". Missing its datatype definition in `data_types`."))
          else
            pure (Ref.promise promise_id)
      | some d => pure (Ref.uuid d.uuid)
    pure
      { identifier := identifier
        long_name := item.long_name
        data_type := some ref
        multi_valued := some item.multi_values.isSome
        type := cls
        promise_id := cls ++ " " ++ identifier }
  else
    pure
      { identifier := identifier
        long_name := item.long_name
        data_type := none
        multi_valued := none
        type := "AttributeDefinition"
        promise_id := "AttributeDefinition " ++ identifier }

/-- `TrackerChange.requirement_type_create_action`: one
`RequirementType` create-descriptor with the `RequirementType
<identifier>` promise; a faulty attribute definition is skipped with a
collected error. -/
def attribute_definition_create_step (ctx : TCCtx) (rt_long_name : String)
    (identifier : String) (acc : List AttrDefCreate)
    (kv : String × SnapAttrDef) : TCM (List AttrDefCreate) :=
  tryCatch
    (do
      let d ← attribute_definition_create_action ctx kv.1 kv.2 identifier
      pure (acc ++ [d]))
    (fun e => match e with
      | .invalidAttributeDefinition msg => do
          handle_user_error ctx
            ("In RequirementType '" ++ rt_long_name ++ "': " ++ msg)
          pure acc
      | e => throw e)

def requirement_type_create_action (ctx : TCCtx) (identifier : String)
    (req_type : SnapReqType) : TCM ReqTypeCreate := do
  let attribute_definitions ← req_type.attributes.foldlM
    (attribute_definition_create_step ctx req_type.long_name identifier)
    []
  pure
    { identifier := identifier
      long_name := req_type.long_name
      promise_id := "RequirementType " ++ identifier
      attribute_definitions := attribute_definitions }

/-- `TrackerChange.requirement_types_folder_create_action`: the single
create-action for a missing `CapellaTypesFolder`, with nested
descriptors for every declared data type and requirement type. -/
def requirement_type_create_step (ctx : TCCtx)
    (acc : List ReqTypeCreate) (kv : String × SnapReqType) :
    TCM (List ReqTypeCreate) := do
  let t ← requirement_type_create_action ctx kv.1 kv.2
  pure (acc ++ [t])

def requirement_types_folder_create_action (ctx : TCCtx)
    (base : Action) : TCM Action := do
  let data_type_defs := ctx.tracker.data_types.map
    (fun kv => data_type_create_action kv.1 kv.2)
  let req_types ← ctx.tracker.requirement_types.foldlM
    (requirement_type_create_step ctx)
    []
  let folder : TypesFolderCreate :=
    { long_name := "Types"
      identifier := "-2"
      data_type_definitions := data_type_defs
      requirement_types := req_types }
  pure { base with extend :=
    [("requirement_types_folders", [ExtendEntry.tf folder])] }

/-- Outcome of a `*_mod_action` helper whose Python version returns a
dict that either has a `parent` key (a modification of an existing
object) or is a create-descriptor. -/
inductive DTModRes where
  | modAct (a : Action)
  | createAct (d : DataTypeCreate)
deriving DecidableEq, Repr

/-- `TrackerChange.data_type_mod_action`: diff one snapshot data type
against the model, recording removed options in the enum-value deletion
set; a data type missing from the model becomes a create-descriptor. -/
def data_type_mod_action (ctx : TCCtx) (id : String) (ddef : SnapDataType) :
    TCM (Option DTModRes) := do
  let folderDefs :=
    (ctx.reqt_folder.map MTypesFolder.data_type_definitions).getD []
  match folderDefs.filter (fun d => d.identifier = id) with
  | [dtdef] => do
      let mods :=
        if dtdef.long_name ≠ ddef.long_name then
          [("long_name", MVal.s ddef.long_name)]
        else []
      let modelValueIds := dtdef.values.map (fun v => v.identifier)
      let creations := ddef.values.filter
        (fun v => !modelValueIds.contains v.id)
      let createAction := data_type_create_action id
        { long_name := ddef.long_name, values := creations }
      let snapIds := ddef.values.map (fun v => v.id)
      let deletedVals := dtdef.values.filter
        (fun v => !snapIds.contains v.identifier)
      if !deletedVals.isEmpty then
        modify fun s => { s with ev_deletions :=
          (s.ev_deletions
            ++ (deletedVals.map (fun v => v.identifier)).filter
              (fun i => !s.ev_deletions.contains i)) }
      let base : Action :=
        { parent := .uuid dtdef.uuid
          modify := mods
          extend :=
            if creations.isEmpty then []
            else [("values", createAction.values.map ExtendEntry.ev)]
          delete :=
            if deletedVals.isEmpty then []
            else [("values", deletedVals.map (fun v => Ref.uuid v.uuid))] }
      if base.parentOnly then
        pure none
      else
        pure (some (.modAct base))
  | _ => pure (some (.createAct (data_type_create_action id ddef)))

/-- `TrackerChange._populate_ev_deletions`: record every enum value of
the data-type definitions staged for deletion. -/
def populate_ev_deletions (ctx : TCCtx) (refs : List Ref) : TCM Unit := do
  refs.forM (fun r => do
    match r with
    | .uuid u =>
        match findDataTypeDefByUuid ctx.model u with
        | some dtdef =>
            modify fun s => { s with ev_deletions :=
              (s.ev_deletions
                ++ (dtdef.values.map (fun v => v.identifier)).filter
                  (fun i => !s.ev_deletions.contains i)) }
        | none => throw .keyError
    | .promise _ => throw .keyError)

/-- One step of the data-type loop of
`TrackerChange.data_type_definition_mod_actions`: a create-descriptor
or a mod-action of one data type is sorted into the accumulator. -/
def dtModStep (ctx : TCCtx) (acc : List DataTypeCreate × List Action)
    (kv : String × SnapDataType) :
    TCM (List DataTypeCreate × List Action) := do
  match ← data_type_mod_action ctx kv.1 kv.2 with
  | none => pure acc
  | some (.modAct a) => pure (acc.1, acc.2 ++ [a])
  | some (.createAct d) => pure (acc.1 ++ [d], acc.2)

/-- `TrackerChange.data_type_definition_mod_actions`: the action
addressed at the types folder (data-type creations and deletions);
modifications of individual data types go straight into the action
list. -/
def data_type_definition_mod_actions (ctx : TCCtx) : TCM Action := do
  let folderDefs :=
    (ctx.reqt_folder.map MTypesFolder.data_type_definitions).getD []
  let folderUuid := (ctx.reqt_folder.map MTypesFolder.uuid).getD ""
  let dt_defs_deletions := (folderDefs.filter
    (fun d => (alGet ctx.tracker.data_types d.identifier).isNone)).map
    (fun d => Ref.uuid d.uuid)
  populate_ev_deletions ctx dt_defs_deletions
  let (creations, modifications) ← ctx.tracker.data_types.foldlM
    (dtModStep ctx) ([], [])
  let base : Action :=
    { parent := .uuid folderUuid
      modify := []
      extend :=
        if creations.isEmpty then []
        else [("data_type_definitions", creations.map ExtendEntry.dt)]
      delete :=
        if dt_defs_deletions.isEmpty then []
        else [("data_type_definitions", dt_defs_deletions)] }
  modify fun s => { s with actions := s.actions ++ modifications }
  pure base

/-- `TrackerChange.requirement_type_delete_actions`: references to the
model requirement types absent from the snapshot. -/
def requirement_type_delete_actions (ctx : TCCtx) : List Ref :=
  let folderTypes :=
    (ctx.reqt_folder.map MTypesFolder.requirement_types).getD []
  (folderTypes.filter
    (fun t => (alGet ctx.tracker.requirement_types t.identifier).isNone)).map
    (fun t => Ref.uuid t.uuid)

/-- Outcome of `attribute_definition_mod_action`. -/
inductive ADModRes where
  | modAct (a : Action)
  | createAct (d : AttrDefCreate)
deriving DecidableEq, Repr

/-- `TrackerChange.attribute_definition_mod_action`: diff one snapshot
attribute definition against the model; the whole comparison runs under
the `except KeyError` that redirects to the create path (which is why a
set `multi_valued` flag with a snapshot that omits `multi_values` also
falls through to creation), and a faulty creation is collected as an
error. -/
def attribute_definition_mod_action (ctx : TCCtx) (reqtype : MReqType)
    (identifier : String) (data : SnapAttrDef) : TCM (Option ADModRes) := do
  tryCatch
    (do
      let fullId := identifier ++ " " ++ reqtype.identifier
      match reqtype.attribute_definitions.filter
          (fun d => d.identifier = fullId) with
      | [attrdef] => do
          let mods₁ :=
            if attrdef.long_name ≠ data.long_name then
              [("long_name", MVal.s data.long_name)]
            else []
          let mods ←
            if data.type = "Enum" then do
              let dtMod :=
                match attrdef.data_type with
                | none => [("data_type", MVal.s identifier)]
                | some d =>
                    if d ≠ identifier then
                      [("data_type", MVal.s identifier)]
                    else []
              if attrdef.multi_valued ≠ data.multi_values.getD false then
                match data.multi_values with
                | some b =>
                    pure (mods₁ ++ dtMod ++ [("multi_valued", MVal.b b)])
                | none => throw .keyError
              else
                pure (mods₁ ++ dtMod)
            else
              pure mods₁
          if mods.isEmpty then
            pure none
          else
            pure (some (.modAct
              { parent := .uuid attrdef.uuid
                modify := mods
                extend := []
                delete := [] }))
      | _ => throw .keyError)
    (fun e => match e with
      | .keyError =>
          tryCatch
            (do
              let d ← attribute_definition_create_action ctx identifier
                data reqtype.identifier
              pure (some (.createAct d)))
            (fun e => match e with
              | .invalidAttributeDefinition msg => do
                  handle_user_error ctx
                    ("In RequirementType " ++ pyReprStr reqtype.long_name
                      ++ ": " ++ msg)
                  pure none
              | e => throw e)
      | e => throw e)

/-- `TrackerChange.requirement_type_mod_action`: diff one snapshot
requirement type against the model; a modified existing type appends its
actions directly and returns `none`, a type missing from the model
returns its create-descriptor. -/
def requirement_type_mod_action (ctx : TCCtx) (identifier : String)
    (item : SnapReqType) : TCM (Option ReqTypeCreate) := do
  let folderTypes :=
    (ctx.reqt_folder.map MTypesFolder.requirement_types).getD []
  match folderTypes.filter (fun t => t.identifier = identifier) with
  | [reqtype] => do
      let mods :=
        if reqtype.long_name ≠ item.long_name then
          [("long_name", MVal.s item.long_name)]
        else []
      let attribute_definition_ids := item.attributes.map
        (fun kv => kv.1 ++ " " ++ reqtype.identifier)
      let attr_defs_deletions := (reqtype.attribute_definitions.filter
        (fun d => !attribute_definition_ids.contains d.identifier)).map
        (fun d => Ref.uuid d.uuid)
      let (creations, modifications) ← item.attributes.foldlM
        (fun (acc : List AttrDefCreate × List Action) kv => do
          match ← attribute_definition_mod_action ctx reqtype kv.1 kv.2 with
          | none => pure acc
          | some (.modAct a) => pure (acc.1, acc.2 ++ [a])
          | some (.createAct d) => pure (acc.1 ++ [d], acc.2))
        ([], [])
      let base : Action :=
        { parent := .uuid reqtype.uuid
          modify := mods
          extend :=
            if creations.isEmpty then []
            else [("attribute_definitions", creations.map ExtendEntry.ad)]
          delete :=
            if attr_defs_deletions.isEmpty then []
            else [("attribute_definitions", attr_defs_deletions)] }
      if !base.parentOnly then
        modify fun s => { s with actions := s.actions ++ [base] }
      modify fun s => { s with actions := s.actions ++ modifications }
      pure none
  | _ => do
      let t ← requirement_type_create_action ctx identifier item
      pure (some t)

/-- One step of the requirement-type loop of
`TrackerChange.calculate_change`: only create-descriptors are
accumulated, modifications having been appended by
`requirement_type_mod_action` itself. -/
def reqTypeModStep (ctx : TCCtx) (acc : List ReqTypeCreate)
    (kv : String × SnapReqType) : TCM (List ReqTypeCreate) := do
  match ← requirement_type_mod_action ctx kv.1 kv.2 with
  | some t => pure (acc ++ [t])
  | none => pure acc

/-! ## The Tree Reconciler -/

/-- The attribute loop of
`TrackerChange.yield_requirements_create_actions`: `break` on a missing
type, `continue` on blacklisted or undeclared attributes, and one
create-descriptor per surviving attribute (faulty values are skipped
with a collected error). -/
def createAttributesLoop (ctx : TCCtx)
    (attrs : List (String × SnapValue)) (req_type_id iid : String) :
    TCM (List AttrValCreate) := do
  match attrs with
  | [] => pure []
  | (id, value) :: rest => do
      match ← check_attribute ctx id value req_type_id iid with
      | .brk => pure []
      | .cont => createAttributesLoop ctx rest req_type_id iid
      | .ok => do
          let a? ← try_create_attribute_value ctx id value req_type_id iid
          let acc ← createAttributesLoop ctx rest req_type_id iid
          match a? with
          | some a => pure (a :: acc)
          | none => pure acc

/-- The attribute loop of
`TrackerChange.yield_requirements_mod_actions`: after a type change
every attribute is rebuilt (create path); otherwise each attribute is
individually reconciled, a `KeyError` redirecting to the create path
and an `InvalidFieldValue` being collected. -/
def modAttributesLoop (ctx : TCCtx) (req : MWorkItem)
    (attrs : List (String × SnapValue)) (req_type_id iid : String)
    (typeChanged : Bool) : TCM (List AttrValCreate × List Action) := do
  match attrs with
  | [] => pure ([], [])
  | (id, value) :: rest => do
      match ← check_attribute ctx id value req_type_id iid with
      | .brk => pure ([], [])
      | .cont => modAttributesLoop ctx req rest req_type_id iid typeChanged
      | .ok => do
          if typeChanged then do
            let a? ← try_create_attribute_value ctx id value req_type_id iid
            let (cs, ms) ← modAttributesLoop ctx req rest req_type_id iid
              typeChanged
            match a? with
            | some a => pure (a :: cs, ms)
            | none => pure (cs, ms)
          else do
            let step ← tryCatch
              (do
                match ← liftE (attribute_value_mod_action ctx req id value
                    req_type_id) with
                | none => pure (none, none)
                | some a => pure (none, some a))
              (fun e => match e with
                | .keyError => do
                    let a? ← try_create_attribute_value ctx id value
                      req_type_id iid
                    pure (a?, none)
                | .invalidFieldValue msg => do
                    handle_user_error ctx
                      ("Invalid workitem '" ++ iid ++ "'. " ++ msg)
                    pure (none, none)
                | e => throw e)
            let (cs, ms) ← modAttributesLoop ctx req rest req_type_id iid
              typeChanged
            match step with
            | (some a, _) => pure (a :: cs, ms)
            | (none, some m) => pure (cs, m :: ms)
            | (none, none) => pure (cs, ms)

mutual
/-- `TrackerChange.yield_requirements_create_actions`: the
create-descriptor for a new Requirement/Folder and, flattened behind
it, the mod-actions of already existing children that the new folder
references. -/
def yield_requirements_create_actions (ctx : TCCtx) (item : SnapItem) :
    TCM (ReqCreate × List Action) := do
  match item with
  | .mk core childrenOpt => do
      let req_type_id := core.type.getD ""
      let attributes ← createAttributesLoop ctx core.attributes
        req_type_id core.id
      let typeRef :=
        if req_type_id ≠ "" then
          match findReqType ctx.model ctx.reqt_folder req_type_id with
          | none => some (Ref.promise ("RequirementType " ++ req_type_id))
          | some rt => some (Ref.uuid rt.uuid)
        else none
      let rcore : ReqCreateCore :=
        { long_name := core.long_name
          identifier := core.id
          text := match core.text with
            | some t => if t ≠ "" then some t else none
            | none => none
          attributes := attributes
          type := typeRef }
      match childrenOpt with
      | some children => do
          let (rs, fs, childMods) ← processCreateChildren ctx children
            core.id
          pure (ReqCreate.mk rcore (ChildEntries.ofList rs)
            (ChildEntries.ofList fs), childMods)
      | none =>
          pure (ReqCreate.mk rcore .nil .nil, [])

/-- The children loop of the create branch: each child becomes a nested
create-descriptor, or a UUID reference plus separate mod-actions when
it already exists somewhere in the model (its expected parent is then
the promise of the new folder's identifier). -/
def processCreateChildren (ctx : TCCtx) (children : SnapItems)
    (parentIdentifier : String) :
    TCM (List ChildEntry × List ChildEntry × List Action) := do
  match children with
  | .nil => pure ([], [], [])
  | .cons child rest => do
      let folderKind := child.children.isSome
      let creq := findWorkItem ctx.model child.core.id folderKind
      let (entry, cmods) ←
        match creq with
        | none => do
            let (desc, cmods) ← yield_requirements_create_actions ctx child
            pure (ChildEntry.create desc, cmods)
        | some creq => do
            let cmods ← yield_requirements_mod_actions ctx creq child
              (some (Ref.promise parentIdentifier))
            pure (ChildEntry.ref (Ref.uuid creq.core.uuid), cmods)
      let (rs, fs, mods) ← processCreateChildren ctx rest parentIdentifier
      if folderKind then
        pure (rs, entry :: fs, cmods ++ mods)
      else
        pure (entry :: rs, fs, cmods ++ mods)

/-- `TrackerChange.yield_requirements_mod_actions`: diff one matched
work item against its snapshot state; a type change rebuilds the whole
attribute set, a parent mismatch records the location change and
invalidates a staged deletion, and Folder children are recursed into,
with per-parent deletion candidates filtered against the visited
children ids united with the location-changed set. -/
def yield_requirements_mod_actions (ctx : TCCtx) (req : MWorkItem)
    (item : SnapItem) (parent : Option Ref) : TCM (List Action) := do
  match item with
  | .mk core childrenOpt => do
      let mods₀ := compare_simple_attributes req core
      let req_type_id := core.type.getD ""
      let (mods, attributes_deletions₀) ←
        if req_type_id ≠ req.core.type_id then do
          if req_type_id ≠ ""
              && (alGet ctx.tracker.requirement_types req_type_id).isNone
          then
            throw (.invalidWorkItemType
              ("Faulty workitem in snapshot: Unknown workitem-type "
                ++ pyReprStr req_type_id))
          let typeRef :=
            match findReqType ctx.model ctx.reqt_folder req_type_id with
            | none => Ref.promise req_type_id
            | some rt => Ref.uuid rt.uuid
          pure (alSet mods₀ "type" (MVal.r typeRef),
            req.core.attributes.map (fun a => Ref.uuid a.uuid))
        else
          pure (mods₀, [])
      let typeChanged := (alGet mods "type").isSome
      let (attributes_creations, attributes_modifications) ←
        modAttributesLoop ctx req core.attributes req_type_id core.id
          typeChanged
      let attribute_definition_ids := core.attributes.map
        (fun kv => kv.1 ++ " " ++ req_type_id)
      let attributes_deletions :=
        if attributes_deletions₀.isEmpty then
          (req.core.attributes.filter (fun a =>
            !attribute_definition_ids.contains a.definition)).map
            (fun a => Ref.uuid a.uuid)
        else attributes_deletions₀
      let parentRef := parent.getD (Ref.uuid ctx.req_module.uuid)
      let parentMatches :=
        match parentRef with
        | .uuid u => req.core.parent_uuid = u
        | .promise _ => false
      if !parentMatches then do
        addLocationChanged req.core.identifier
        invalidate_deletion req
      let (extendGroups, deleteGroups, childMods, staged) ←
        if req.core.folder then do
          let (child_req_ids, child_folder_ids, cr, cf, childMods) ←
            match childrenOpt with
            | some cs => processModChildren ctx req cs
            | none => pure ([], [], [], [], [])
          let s ← get
          let fold_dels := make_requirement_delete_actions req
            (child_folder_ids ++ s.location_changed) "folders"
          let req_dels := make_requirement_delete_actions req
            (child_req_ids ++ s.location_changed) "requirements"
          let extendGroups :=
            (if attributes_creations.isEmpty then []
             else [("attributes",
               attributes_creations.map ExtendEntry.attr)])
            ++ (if cr.isEmpty then []
                else [("requirements", cr.map ExtendEntry.child)])
            ++ (if cf.isEmpty then []
                else [("folders", cf.map ExtendEntry.child)])
          let deleteGroups :=
            (if attributes_deletions.isEmpty then []
             else [("attributes", attributes_deletions)])
            ++ (if fold_dels.isEmpty then [] else [("folders", fold_dels)])
            ++ (if req_dels.isEmpty then []
                else [("requirements", req_dels)])
          pure (extendGroups, deleteGroups, childMods, req_dels ++ fold_dels)
        else
          pure
            ((if attributes_creations.isEmpty then []
              else [("attributes",
                attributes_creations.map ExtendEntry.attr)]),
             (if attributes_deletions.isEmpty then []
              else [("attributes", attributes_deletions)]),
             [], [])
      let base : Action :=
        { parent := .uuid req.core.uuid
          modify := mods
          extend := extendGroups
          delete := deleteGroups }
      if !staged.isEmpty then
        modify fun s =>
          { s with
            req_deletions := staged.foldl
              (fun acc r => match r with
                | Ref.uuid u => alSet acc u req.core.uuid
                | Ref.promise _ => acc)
              s.req_deletions
            del_map := alSet s.del_map req.core.uuid deleteGroups
            staged_core := alSet s.staged_core req.core.uuid base }
      let own := if !base.parentOnly then [base] else []
      pure (own ++ attributes_modifications ++ childMods)

/-- The children loop of the Folder modify branch: partitions snapshot
children into creations and modifications, collecting the per-kind
child identifier sets used by the deletion computation; a moved-in
existing child is referenced by UUID in the new parent's `extend`. -/
def processModChildren (ctx : TCCtx) (req : MWorkItem)
    (children : SnapItems) :
    TCM (List String × List String × List ChildEntry × List ChildEntry
      × List Action) := do
  match children with
  | .nil => pure ([], [], [], [], [])
  | .cons child rest => do
      let folderKind := child.children.isSome
      let cid := child.core.id
      let creq := findWorkItem ctx.model cid folderKind
      let (entry?, cmods) ←
        match creq with
        | none => do
            let (desc, cmods) ← yield_requirements_create_actions ctx child
            pure (some (ChildEntry.create desc), cmods)
        | some creq => do
            let cmods ← yield_requirements_mod_actions ctx creq child
              (some (Ref.uuid req.core.uuid))
            if creq.core.parent_uuid ≠ req.core.uuid then
              pure (some (ChildEntry.ref (Ref.uuid creq.core.uuid)), cmods)
            else
              pure (none, cmods)
      let (rids, fids, rs, fs, mods) ← processModChildren ctx req rest
      let entryList := match entry? with
        | some e => [e]
        | none => []
      if folderKind then
        pure (rids, cid :: fids, rs, entryList ++ fs, cmods ++ mods)
      else
        pure (cid :: rids, fids, entryList ++ rs, fs, cmods ++ mods)
end

/-! ## The Change-Set Compiler -/

/-- `TrackerChange.check_requirements_module`: the fatal per-tracker
checks, and the starting action for the `CapellaModule` (identifier and
long-name diffs). -/
def check_requirements_module (model : MelodyModel)
    (config : TrackerConfig) (tracker : TrackerSnapshot) :
    Except PyErr (MModule × Action) := do
  let some module_uuid := config.capella_uuid
    | throw (.invalidTrackerConfig
        ("The given module configuration is missing UUID of the "
          ++ "target CapellaModule"))
  match findModuleByUuid model module_uuid with
  | none =>
      throw (.missingCapellaModule
        ("No CapellaModule with UUID " ++ pyReprStr module_uuid
          ++ " found in " ++ model.info_repr))
  | some md => do
      let some identifier := tracker.id
        | throw (.invalidSnapshotModule
            "In the snapshot the module is missing an id key")
      let mods :=
        (if md.identifier ≠ identifier then
          [("identifier", MVal.s identifier)]
         else [])
        ++ (let ln := tracker.long_name.getD md.long_name
            if md.long_name ≠ ln then [("long_name", MVal.s ln)] else [])
      pure (md,
        { parent := .uuid md.uuid, modify := mods, extend := [],
          delete := [] })

/-- `_add_action_safely(base, "extend", key, action)`. -/
def actionAddExtendChild (a : Action) (key : String) (e : ChildEntry) :
    Action :=
  { a with extend := alAppend a.extend key (ExtendEntry.child e) }

/-- Write the staged bases' current delete groups back into the emitted
action list (the Python dict aliasing between
`TrackerChange._req_deletions` and `TrackerChange.actions`). -/
def materializeActions (s : TCState) : List Action :=
  s.actions.map (fun a =>
    match a.parent with
    | .uuid u =>
        if (alGet s.staged_core u).isSome then
          { a with delete := (alGet s.del_map u).getD [] }
        else a
    | .promise _ => a)

/-- The final loop of `TrackerChange.calculate_change`: every staged
base that was emptied down to its `parent` key is removed from the
action list; a second removal of the same (already removed) action
raises `ValueError`, as `list.remove` does. -/
def cleanupStagedActions (s : TCState) (acts : List Action) :
    Except PyErr (List Action) :=
  s.req_deletions.foldlM
    (fun (acc : List Action) entry => do
      match alGet s.staged_core entry.2 with
      | none => pure acc
      | some core =>
          let mat := { core with delete := (alGet s.del_map entry.2).getD [] }
          if mat.parentOnly then
            if acc.contains mat then
              pure (acc.erase mat)
            else
              throw .valueError
          else
            pure acc)
    acts

/-- One iteration of the item loop of
`TrackerChange.calculate_change`: unmatched items are created under the
module action, matched items are reconciled as modifications, a changed
parent adding a module-level reference and invalidating a staged
deletion. -/
def itemStep (ctx : TCCtx) (acc : Action × List String)
    (item : SnapItem) : TCM (Action × List String) := do
  let (base, visited) := acc
  let folderKind := item.children.isSome
  let second_key := if folderKind then "folders" else "requirements"
  match findWorkItem ctx.model item.core.id folderKind with
  | none => do
      let (desc, childMods) ←
        yield_requirements_create_actions ctx item
      let base := actionAddExtendChild base second_key (.create desc)
      modify fun s => { s with actions := s.actions ++ childMods }
      pure (base, visited)
  | some req => do
      let visited :=
        if visited.contains req.core.identifier then visited
        else visited ++ [req.core.identifier]
      let base ←
        if req.core.parent_uuid ≠ ctx.req_module.uuid then do
          let base := actionAddExtendChild base second_key
            (.ref (.uuid req.core.uuid))
          addLocationChanged req.core.identifier
          invalidate_deletion req
          pure base
        else
          pure base
      let reqActions ← yield_requirements_mod_actions ctx req item none
      modify fun s => { s with actions := s.actions ++ reqActions }
      pure (base, visited)

/-- `TrackerChange.calculate_change`: schema reconciliation first, then
the item walk, then the staged-deletion clean-up and the module-level
deletions. -/
def calculate_change (model : MelodyModel) (config : TrackerConfig)
    (tracker : TrackerSnapshot) (gather_logs : Bool) : TCM Unit := do
  let (req_module, base₀) ←
    match check_requirements_module model config tracker with
    | .ok x => pure x
    | .error e => throw e
  let reqt_folder := findTypesFolder req_module "-2"
  let ctx : TCCtx :=
    { model := model, tracker := tracker, gather_logs := gather_logs,
      req_module := req_module, reqt_folder := reqt_folder }
  let base ←
    match reqt_folder with
    | none => requirement_types_folder_create_action ctx base₀
    | some _ => do
        let rfa₀ ← data_type_definition_mod_actions ctx
        let reqtype_deletions := requirement_type_delete_actions ctx
        let rfa₁ :=
          if reqtype_deletions.isEmpty then rfa₀
          else { rfa₀ with delete :=
            (alSet rfa₀.delete "requirement_types" reqtype_deletions) }
        let reqtype_creations ← ctx.tracker.requirement_types.foldlM
          (reqTypeModStep ctx) []
        let rfa₂ :=
          if reqtype_creations.isEmpty then rfa₁
          else { rfa₁ with extend :=
            (alSet rfa₁.extend "requirement_types"
              (reqtype_creations.map ExtendEntry.rt)) }
        if !rfa₂.parentOnly then
          modify fun s => { s with actions := s.actions ++ [rfa₂] }
        pure base₀
  let (base, visited) ← tracker.items.foldlM (itemStep ctx) (base, [])
  let s ← get
  let materialized := materializeActions s
  let cleaned ←
    match cleanupStagedActions s materialized with
    | .ok acts => pure acts
    | .error e => throw e
  set { s with actions := cleaned }
  let req_dels := req_delete_actions req_module visited "requirements"
  let base :=
    if req_dels.isEmpty then base
    else { base with delete := alSet base.delete "requirements" req_dels }
  let fold_dels := req_delete_actions req_module visited "folders"
  let base :=
    if fold_dels.isEmpty then base
    else { base with delete := alSet base.delete "folders" fold_dels }
  if !base.parentOnly then
    modify fun s => { s with actions := s.actions ++ [base] }

/-- `TrackerChange.__init__` followed by `calculate_change`: the run's
outcome and final instance state. -/
def trackerChangeRun (model : MelodyModel) (config : TrackerConfig)
    (tracker : TrackerSnapshot) (gather_logs : Bool := true) :
    Except PyErr Unit × TCState :=
  TCM.run (calculate_change model config tracker gather_logs) TCState.init

/-- `_wrap_errors` from `changeset/__init__.py`. -/
def wrap_errors (module_id : String) (errors : List String)
    (include_start : Bool) : String :=
  let start :=
    if include_start then "Skipping module: " ++ module_id
    else "Encountered error(s) in " ++ pyReprStr module_id
  let first_sep := String.mk (List.replicate start.length '=')
  let last_sep :=
    String.mk (List.replicate (errors.getLast?.getD "").length '=')
  String.intercalate "\n" ([start, first_sep] ++ errors ++ [last_sep])

/-- `calculate_change_set` from `changeset/__init__.py`: the per-tracker
orchestration with the force / safe-mode policies.  Only the three
fatal conditions are caught; any other exception escapes to the caller,
hence the `Except` result. -/
def calculate_change_set (model : MelodyModel) (config : TrackerConfig)
    (snapshot : TrackerSnapshot) (force : Bool := false)
    (safe_mode : Bool := true) (gather_logs : Bool := true) :
    Except PyErr (List Action × List String) :=
  let module_id := snapshot.id.getD "MISSING ID"
  match trackerChangeRun model config snapshot gather_logs with
  | (.ok _, s) =>
      let (actions, errors) :=
        if !s.errors.isEmpty then
          ([], [wrap_errors module_id s.errors (!force)])
        else
          (s.actions, [])
      let actions :=
        if force && !s.actions.isEmpty then
          s.actions.foldl
            (fun acc a => if acc.contains a then acc else acc ++ [a])
            actions
        else actions
      let safe_mode := if force then false else safe_mode
      .ok (if safe_mode && !errors.isEmpty then [] else actions, errors)
  | (.error e, _) =>
      match e with
      | .invalidTrackerConfig msg =>
          .ok ([], if gather_logs then [wrap_errors module_id [msg] true]
                   else [])
      | .invalidSnapshotModule msg =>
          .ok ([], if gather_logs then [wrap_errors module_id [msg] true]
                   else [])
      | .missingCapellaModule msg =>
          .ok ([], if gather_logs then [wrap_errors module_id [msg] true]
                   else [])
      | e => .error e

/-! ## Run lemmas for the `TCM` monad -/

theorem TCM.run_pure {α : Type} (a : α) (s : TCState) :
    TCM.run (pure a) s = (.ok a, s) := rfl

theorem TCM.run_bind {α β : Type} (x : TCM α) (f : α → TCM β)
    (s : TCState) :
    TCM.run (x >>= f) s =
      match TCM.run x s with
      | (.ok a, s') => TCM.run (f a) s'
      | (.error e, s') => (.error e, s') := by
  show TCM.run (ExceptT.bind x f) s = _
  simp only [TCM.run, ExceptT.run, ExceptT.bind, ExceptT.mk,
    ExceptT.bindCont, StateT.run, bind, StateT.bind]
  rcases x s with ⟨r, s'⟩
  cases r <;> rfl

theorem TCM.run_throw {α : Type} (e : PyErr) (s : TCState) :
    TCM.run (throw e : TCM α) s = (.error e, s) := rfl

theorem TCM.run_get (s : TCState) :
    TCM.run (get : TCM TCState) s = (.ok s, s) := rfl

theorem TCM.run_modify (f : TCState → TCState) (s : TCState) :
    TCM.run (modify f : TCM Unit) s = (.ok (), f s) := rfl

theorem TCM.run_map {α β : Type} (f : α → β) (x : TCM α) (s : TCState) :
    TCM.run (f <$> x) s =
      match TCM.run x s with
      | (.ok a, s') => (.ok (f a), s')
      | (.error e, s') => (.error e, s') := by
  show TCM.run (ExceptT.map f x) s = _
  simp only [TCM.run, ExceptT.run, ExceptT.map, ExceptT.mk, StateT.run,
    bind, StateT.bind]
  rcases x s with ⟨r, s'⟩
  cases r <;> rfl

theorem TCM.run_tryCatch {α : Type} (x : TCM α) (h : PyErr → TCM α)
    (s : TCState) :
    TCM.run (tryCatch x h) s =
      match TCM.run x s with
      | (.ok a, s') => (.ok a, s')
      | (.error e, s') => TCM.run (h e) s' := by
  show TCM.run (ExceptT.tryCatch x h) s = _
  simp only [TCM.run, ExceptT.run, ExceptT.tryCatch, ExceptT.mk,
    StateT.run, bind, StateT.bind]
  rcases x s with ⟨r, s'⟩
  cases r <;> rfl

/-! ## Claim C9 — `ReqFinder._get` -/

/-- C9: a lookup through the Object Finder's `_get` with zero matches
returns the not-found sentinel `None` without raising, and more than
one match for a supposedly-unique key signals an error distinct from
not-found instead of returning an arbitrary match or `None`. -/
theorem reqFinder_get_zero_and_multi {α : Type} (objs : List α)
    (p : α → Bool) :
    (objs.filter p = [] → ReqFinder_get objs p = .ok none) ∧
    (2 ≤ (objs.filter p).length →
      ReqFinder_get objs p = .error .multipleMatches
        ∧ LookupErr.multipleMatches ≠ LookupErr.notFound) := by
  constructor
  · intro h
    simp [ReqFinder_get, h, byAttrSingle]
  · intro h
    match hf : objs.filter p with
    | [] => rw [hf] at h; simp at h
    | [x] => rw [hf] at h; simp at h
    | x :: y :: rest =>
        refine ⟨?_, by decide⟩
        simp [ReqFinder_get, hf, byAttrSingle]

/-- Witness for C9 at a concrete instance: the key `0` has no match
(sentinel), the key `1` has two matches (distinct error). -/
theorem reqFinder_get_zero_and_multi_witness :
    ([1, 1, 2].filter (fun x => x = 0) = [] →
      ReqFinder_get [1, 1, 2] (fun x => x = 0) = .ok none) ∧
    (2 ≤ ([1, 1, 2].filter (fun x => x = 1)).length →
      ReqFinder_get [1, 1, 2] (fun x => x = 1)
          = .error .multipleMatches
        ∧ LookupErr.multipleMatches ≠ LookupErr.notFound) := by
  constructor
  · exact (reqFinder_get_zero_and_multi [1, 1, 2] (fun x => x = 0)).1
  · exact (reqFinder_get_zero_and_multi [1, 1, 2] (fun x => x = 1)).2

/-! ## Claim C10 — fatal per-tracker conditions -/

/-- C10: a tracker config without the `capella-uuid` key raises
`InvalidTrackerConfig`, a model without the configured `CapellaModule`
raises `MissingCapellaModule`, a snapshot without its `id` key raises
`InvalidSnapshotModule`; `calculate_change_set` catches exactly these
three conditions at the tracker boundary, converts each into one
wrapped error message appended to the returned error list, and returns
an empty action list instead of propagating; any other exception does
propagate. -/
theorem fatal_conditions_are_wrapped (model : MelodyModel)
    (config : TrackerConfig) (snapshot : TrackerSnapshot) :
    (config.capella_uuid = none →
      check_requirements_module model config snapshot
        = .error (.invalidTrackerConfig
            ("The given module configuration is missing UUID of the "
              ++ "target CapellaModule")))
    ∧ (∀ u, config.capella_uuid = some u →
        model.modules.filter (fun md => md.uuid = u) = [] →
        check_requirements_module model config snapshot
          = .error (.missingCapellaModule
              ("No CapellaModule with UUID " ++ pyReprStr u
                ++ " found in " ++ model.info_repr)))
    ∧ (∀ u md, config.capella_uuid = some u →
        model.modules.filter (fun md' => md'.uuid = u) = [md] →
        snapshot.id = none →
        check_requirements_module model config snapshot
          = .error (.invalidSnapshotModule
              "In the snapshot the module is missing an id key"))
    ∧ (∀ e s' msg, trackerChangeRun model config snapshot = (.error e, s') →
        (e = .invalidTrackerConfig msg ∨ e = .invalidSnapshotModule msg
          ∨ e = .missingCapellaModule msg) →
        calculate_change_set model config snapshot
          = .ok ([], [wrap_errors (snapshot.id.getD "MISSING ID")
              [msg] true]))
    ∧ (∀ e s' , trackerChangeRun model config snapshot = (.error e, s') →
        (∀ msg, e ≠ .invalidTrackerConfig msg
          ∧ e ≠ .invalidSnapshotModule msg
          ∧ e ≠ .missingCapellaModule msg) →
        calculate_change_set model config snapshot = .error e) := by
  refine ⟨?_, ?_, ?_, ?_, ?_⟩
  · intro h
    simp [check_requirements_module, h]
    rfl
  · intro u hu hfilter
    simp [check_requirements_module, hu, findModuleByUuid, hfilter,
      findUnique]
    rfl
  · intro u md hu hfilter hid
    simp [check_requirements_module, hu, findModuleByUuid, hfilter,
      findUnique, hid]
    rfl
  · intro e s' msg hrun he
    simp only [calculate_change_set, hrun]
    rcases he with he | he | he <;> subst he <;> rfl
  · intro e s' hrun hne
    simp only [calculate_change_set, hrun]
    cases e <;> first
      | rfl
      | (exact absurd rfl (hne _).1)
      | (exact absurd rfl (hne _).2.1)
      | (exact absurd rfl (hne _).2.2)

/-- Witness for C10 at concrete inputs: an empty config, a config whose
UUID matches no module, and a snapshot without an `id` key. -/
theorem fatal_conditions_are_wrapped_witness :
    (check_requirements_module ⟨"<i>", []⟩ ⟨none⟩
        ⟨some "M", none, [], [], []⟩
      = .error (.invalidTrackerConfig
          ("The given module configuration is missing UUID of the "
            ++ "target CapellaModule")))
    ∧ (check_requirements_module ⟨"<i>", []⟩ ⟨some "u0"⟩
          ⟨some "M", none, [], [], []⟩
        = .error (.missingCapellaModule
            ("No CapellaModule with UUID " ++ pyReprStr "u0"
              ++ " found in " ++ "<i>")))
    ∧ (check_requirements_module
          ⟨"<i>", [⟨"u0", "M", "M", [], .nil, .nil⟩]⟩ ⟨some "u0"⟩
          ⟨none, none, [], [], []⟩
        = .error (.invalidSnapshotModule
            "In the snapshot the module is missing an id key"))
    ∧ (calculate_change_set ⟨"<i>", []⟩ ⟨none⟩ ⟨some "M", none, [], [], []⟩
        = .ok ([], [wrap_errors "M"
            [("The given module configuration is missing UUID of the "
              ++ "target CapellaModule")] true])) := by
  refine ⟨?_, ?_, ?_, ?_⟩
  · exact (fatal_conditions_are_wrapped ⟨"<i>", []⟩ ⟨none⟩
      ⟨some "M", none, [], [], []⟩).1 rfl
  · exact (fatal_conditions_are_wrapped ⟨"<i>", []⟩ ⟨some "u0"⟩
      ⟨some "M", none, [], [], []⟩).2.1 "u0" rfl rfl
  · exact (fatal_conditions_are_wrapped
      ⟨"<i>", [⟨"u0", "M", "M", [], .nil, .nil⟩]⟩ ⟨some "u0"⟩
      ⟨none, none, [], [], []⟩).2.2.1 "u0" ⟨"u0", "M", "M", [], .nil, .nil⟩
      rfl (by rfl) rfl
  · exact (fatal_conditions_are_wrapped ⟨"<i>", []⟩ ⟨none⟩
      ⟨some "M", none, [], [], []⟩).2.2.2.1
      (.invalidTrackerConfig
        ("The given module configuration is missing UUID of the "
          ++ "target CapellaModule"))
      TCState.init
      ("The given module configuration is missing UUID of the "
        ++ "target CapellaModule")
      (by rfl) (Or.inl rfl)

/-! ## Identifier collectors over emitted actions -/

mutual
/-- All identifiers of the create-descriptors in a subtree of nested
requirement/folder creations (the root included). -/
def ReqCreate.allIdentifiers : ReqCreate → List String
  | .mk core rs fs =>
      core.identifier :: rs.allIdentifiers ++ fs.allIdentifiers

/-- All identifiers of the create-descriptors in a child list. -/
def ChildEntries.allIdentifiers : ChildEntries → List String
  | .nil => []
  | .cons e tl =>
      (match e with
        | .create c => c.allIdentifiers
        | .ref _ => []) ++ tl.allIdentifiers
end

/-- All work-item identifiers created by the `extend` groups of an
action. -/
def Action.createIdentifiers (a : Action) : List String :=
  a.extend.foldr
    (fun kv acc =>
      kv.2.foldr
        (fun e acc2 =>
          (match e with
            | .child (.create c) => c.allIdentifiers
            | _ => []) ++ acc2)
        acc)
    []

/-- All work-item identifiers created anywhere in a change set. -/
def actionsCreateIdentifiers (l : List Action) : List String :=
  l.foldr (fun a acc => a.createIdentifiers ++ acc) []

/-! ## Scenario S1: an invalid enum value amid valid items

A clean module (no types folder), a requirement type `T1` whose enum
attribute `Priority` declares the options `Low`/`High`; the snapshot
item `REQ-1` carries the undeclared value `Unknown`, its sibling
`REQ-2` the valid value `High`.  Used by claims C2 and C6. -/

def s1_config : TrackerConfig := ⟨some "m-uuid"⟩

def s1_model : MelodyModel :=
  { info_repr := "<info>"
    modules := [{ uuid := "m-uuid", identifier := "MOD-1",
                  long_name := "Module", types_folders := [],
                  requirements := .nil, folders := .nil }] }

def s1_snapshot : TrackerSnapshot :=
  { id := some "MOD-1", long_name := some "Module"
    data_types := [("Priority",
      { long_name := "Priority",
        values := [⟨"Low", "Low"⟩, ⟨"High", "High"⟩] })]
    requirement_types := [("T1",
      { long_name := "T1"
        attributes := [("Priority",
          { long_name := "Priority", type := "Enum",
            multi_values := none })] })]
    items :=
      [.mk { id := "REQ-1", long_name := "Brakes", text := none,
             type := some "T1",
             attributes := [("Priority", .vlist ["Unknown"])] } none,
       .mk { id := "REQ-2", long_name := "Wheels", text := none,
             type := some "T1",
             attributes := [("Priority", .vlist ["High"])] } none] }

/-- The error message the run collects for `REQ-1`. -/
def s1_message : String :=
  "Invalid workitem 'REQ-1'. Invalid field found: "
    ++ "values ['Unknown'] for 'Priority'"

/-- The single action the S1 run produces: the module action containing
the types-folder creation and the create-descriptors of both items —
`REQ-1` without its faulty `Priority` attribute, `REQ-2` untouched. -/
def s1_action : Action :=
  { parent := .uuid "m-uuid"
    modify := []
    extend :=
      [("requirement_types_folders",
        [ExtendEntry.tf
          { long_name := "Types", identifier := "-2",
            data_type_definitions :=
              [{ identifier := "Priority", long_name := "Priority",
                 values :=
                   [⟨"Low", "Low", "EnumValue Priority Low"⟩,
                    ⟨"High", "High", "EnumValue Priority High"⟩],
                 promise_id := "EnumerationDataTypeDefinition Priority",
                 type := "EnumerationDataTypeDefinition" }],
            requirement_types :=
              [{ identifier := "T1", long_name := "T1",
                 promise_id := "RequirementType T1",
                 attribute_definitions :=
                   [{ identifier := "Priority T1",
                      long_name := "Priority",
                      data_type := some (.promise
                        "EnumerationDataTypeDefinition Priority"),
                      multi_valued := some false,
                      type := "AttributeDefinitionEnumeration",
                      promise_id :=
                        "AttributeDefinitionEnumeration Priority T1" }] }] }]),
       ("requirements",
        [ExtendEntry.child (.create (ReqCreate.mk
          { long_name := "Brakes", identifier := "REQ-1", text := none,
            attributes := [],
            type := some (.promise "RequirementType T1") } .nil .nil)),
         ExtendEntry.child (.create (ReqCreate.mk
          { long_name := "Wheels", identifier := "REQ-2", text := none,
            attributes :=
              [{ type := "enum",
                 definition := .promise
                   "AttributeDefinitionEnumeration Priority T1",
                 key := "values",
                 value := .refs [.promise "EnumValue Priority High"] }],
            type := some (.promise "RequirementType T1") } .nil .nil))])]
    delete := [] }

/-! ## Claims C2 and C6 — error collection, safe mode and force -/

/-- Counterexample to C2 as stated: with `force=True` on a snapshot
holding one erroring item (`REQ-1`) amid a valid item, the returned
action list does **not** exclude the erroring item's partial action —
`REQ-1`'s create-descriptor (stripped of its faulty attribute) is still
part of the rendered change set. -/
theorem force_includes_partial_action_counterexample :
    calculate_change_set s1_model s1_config s1_snapshot true
      = .ok ([s1_action], [wrap_errors "MOD-1" [s1_message] false])
    ∧ (actionsCreateIdentifiers [s1_action]).contains "REQ-1" = true := by
  constructor
  · rfl
  · rfl

/-- C2 as amended: with default parameters the action list for the
erroring tracker is exactly empty (all-or-nothing); with `force=True`
the list is non-empty and covers all valid items (`REQ-2` complete),
while the erroring item's action is included in partial form, only its
faulty attribute omitted. -/
theorem safe_mode_all_or_nothing :
    calculate_change_set s1_model s1_config s1_snapshot
      = .ok ([], [wrap_errors "MOD-1" [s1_message] true])
    ∧ calculate_change_set s1_model s1_config s1_snapshot true
      = .ok ([s1_action], [wrap_errors "MOD-1" [s1_message] false])
    ∧ (actionsCreateIdentifiers [s1_action]).contains "REQ-2" = true
    ∧ (actionsCreateIdentifiers [s1_action]).contains "REQ-1" = true := by
  refine ⟨rfl, rfl, rfl, rfl⟩

/-- Counterexample to C6 as stated: the walk collects exactly the
claimed message, but `REQ-1` is **not** excluded from the create
actions — its create-descriptor (without the faulty `Priority`
attribute) is still emitted by the tree walk. -/
theorem invalid_enum_item_not_excluded_counterexample :
    (trackerChangeRun s1_model s1_config s1_snapshot).2.errors
      = [s1_message]
    ∧ (actionsCreateIdentifiers
        (trackerChangeRun s1_model s1_config s1_snapshot).2.actions).contains
        "REQ-1" = true := by
  constructor
  · rfl
  · rfl

/-- The context of the S1 run (no types folder exists). -/
def s1_ctx : TCCtx :=
  { model := s1_model, tracker := s1_snapshot, gather_logs := true,
    req_module := { uuid := "m-uuid", identifier := "MOD-1",
                    long_name := "Module", types_folders := [],
                    requirements := .nil, folders := .nil },
    reqt_folder := none }

/-- C6 as amended: `check_attribute_value_is_valid` raises
`InvalidFieldValue` on `Priority = ["Unknown"]`, the caller collects
exactly the message `"Invalid workitem 'REQ-1'. Invalid field found:
values ['Unknown'] for 'Priority'"` without crashing the walk, the
faulty `Priority` attribute is excluded from `REQ-1`'s
create-descriptor while `REQ-1`'s create action itself remains, and the
valid sibling `REQ-2` is unaffected. -/
theorem invalid_enum_value_collected_attribute_skipped :
    check_attribute_value_is_valid s1_ctx "Priority"
        (.vlist ["Unknown"]) "T1"
      = .error (.invalidFieldValue
          "Invalid field found: values ['Unknown'] for 'Priority'")
    ∧ (trackerChangeRun s1_model s1_config s1_snapshot).1 = .ok ()
    ∧ (trackerChangeRun s1_model s1_config s1_snapshot).2.errors
      = [s1_message]
    ∧ (trackerChangeRun s1_model s1_config s1_snapshot).2.actions
      = [s1_action] := by
  refine ⟨rfl, rfl, rfl, rfl⟩

/-! ## Scenario and claim C1 — move versus delete

A model with requirement type `T`, and a requirement `R` that changes
parent between model and snapshot. -/

def c1_config : TrackerConfig := ⟨some "m-u"⟩

/-- The types folder shared by the C1 configurations. -/
def c1_tfolder : MTypesFolder :=
  { uuid := "tf-u", identifier := "-2", long_name := "Types",
    data_type_definitions := [],
    requirement_types := [{ uuid := "t-u", identifier := "T",
                            long_name := "T",
                            attribute_definitions := [] }] }

/-- Model for the `A = module, B = folder` direction: `R` is a direct
child of the module, the empty folder `B` exists. -/
def c1_model : MelodyModel :=
  { info_repr := "<i>"
    modules := [{ uuid := "m-u", identifier := "M", long_name := "M",
                  types_folders := [c1_tfolder],
                  requirements := .ofList
                    [.mk { uuid := "r-u", identifier := "R",
                           long_name := "R", text := "", type_id := "T",
                           attributes := [], folder := false,
                           parent_uuid := "m-u" } .nil .nil],
                  folders := .ofList
                    [.mk { uuid := "b-u", identifier := "B",
                           long_name := "B", text := "", type_id := "T",
                           attributes := [], folder := true,
                           parent_uuid := "m-u" } .nil .nil] }] }

/-- Snapshot for the `A = module, B = folder` direction: `R` now sits
under `B`. -/
def c1_snapshot : TrackerSnapshot :=
  { id := some "M", long_name := some "M",
    data_types := [],
    requirement_types := [("T", { long_name := "T", attributes := [] })],
    items := [.mk { id := "B", long_name := "B", text := none,
                    type := some "T", attributes := [] }
                 (some (.ofList
                   [.mk { id := "R", long_name := "R", text := none,
                          type := some "T", attributes := [] } none]))] }

/-- Model for the `A = folder, B = module` direction with a staged
sibling: folder `A` contains `R` (which moves to the top level) and
`R2` (which is simply deleted). -/
def c1v_model : MelodyModel :=
  { info_repr := "<i>"
    modules := [{ uuid := "m-u", identifier := "M", long_name := "M",
                  types_folders := [c1_tfolder],
                  requirements := .nil,
                  folders := .ofList
                    [.mk { uuid := "a-u", identifier := "A",
                           long_name := "A", text := "", type_id := "T",
                           attributes := [], folder := true,
                           parent_uuid := "m-u" }
                       (.ofList
                         [.mk { uuid := "r-u", identifier := "R",
                                long_name := "R", text := "",
                                type_id := "T", attributes := [],
                                folder := false,
                                parent_uuid := "a-u" } .nil .nil,
                          .mk { uuid := "r2-u", identifier := "R2",
                                long_name := "R2", text := "",
                                type_id := "T", attributes := [],
                                folder := false,
                                parent_uuid := "a-u" } .nil .nil])
                       .nil] }] }

/-- Snapshot for the crashing direction: `A` keeps no children, `R`
appears at the top level, `R2` disappears. -/
def c1v_snapshot : TrackerSnapshot :=
  { id := some "M", long_name := some "M",
    data_types := [],
    requirement_types := [("T", { long_name := "T", attributes := [] })],
    items := [.mk { id := "A", long_name := "A", text := none,
                    type := some "T", attributes := [] }
                 (some .nil),
              .mk { id := "R", long_name := "R", text := none,
                    type := some "T", attributes := [] } none] }

/-- C1 fails on the code (code bug).  (1) When `R` moves from the
module (parent A) into folder `B`, the change set contains both the
UUID-reference add of `R` under `B`'s action **and** a delete of `R`
under the module's action: the module-level deletion candidates of
`req_delete_actions` are filtered only against the visited set, not
against the location-changed set, and module-level deletions are never
staged for invalidation.  (2) When `R` moves from folder `A` to the
top level while a sibling deletion stays staged under `A`, the second
`invalidate_deletion` call of the top-level loop raises `ValueError`
(`list.remove` of an already removed reference), so no change set is
produced at all. -/
theorem move_not_delete_violated :
    (trackerChangeRun c1_model c1_config c1_snapshot).1 = .ok ()
    ∧ (trackerChangeRun c1_model c1_config c1_snapshot).2.actions =
        [{ parent := .uuid "b-u", modify := [],
           extend := [("requirements",
             [.child (.ref (.uuid "r-u"))])],
           delete := [] },
         { parent := .uuid "m-u", modify := [], extend := [],
           delete := [("requirements", [.uuid "r-u"])] }]
    ∧ (trackerChangeRun c1v_model c1_config c1v_snapshot).1
        = .error .valueError := by
  refine ⟨rfl, rfl, rfl⟩

/-! ## Scenario and claim C7 — `RequirementType` promise tokens -/

def c7_config : TrackerConfig := ⟨some "m-u"⟩

/-- Model for C7: requirement `R` has type `T_old`; `T_new` does not
exist in the model. -/
def c7_model : MelodyModel :=
  { info_repr := "<i>"
    modules := [{ uuid := "m-u", identifier := "M", long_name := "M",
                  types_folders :=
                    [{ uuid := "tf-u", identifier := "-2",
                       long_name := "Types",
                       data_type_definitions := [],
                       requirement_types :=
                         [{ uuid := "told-u", identifier := "T_old",
                            long_name := "T old",
                            attribute_definitions := [] }] }],
                  requirements := .ofList
                    [.mk { uuid := "r-u", identifier := "R",
                           long_name := "R", text := "",
                           type_id := "T_old", attributes := [],
                           folder := false,
                           parent_uuid := "m-u" } .nil .nil],
                  folders := .nil }] }

/-- Snapshot for C7: `R` switches to the snapshot-declared but
not-yet-existing type `T_new`. -/
def c7_snapshot : TrackerSnapshot :=
  { id := some "M", long_name := some "M",
    data_types := [],
    requirement_types :=
      [("T_old", { long_name := "T old", attributes := [] }),
       ("T_new", { long_name := "T new", attributes := [] })],
    items := [.mk { id := "R", long_name := "R", text := none,
                    type := some "T_new", attributes := [] } none] }

/-- The context of the C7 run. -/
def c7_ctx : TCCtx :=
  { model := c7_model, tracker := c7_snapshot, gather_logs := true,
    req_module :=
      { uuid := "m-u", identifier := "M", long_name := "M",
        types_folders :=
          [{ uuid := "tf-u", identifier := "-2", long_name := "Types",
             data_type_definitions := [],
             requirement_types :=
               [{ uuid := "told-u", identifier := "T_old",
                  long_name := "T old",
                  attribute_definitions := [] }] }],
        requirements := .ofList
          [.mk { uuid := "r-u", identifier := "R", long_name := "R",
                 text := "", type_id := "T_old", attributes := [],
                 folder := false, parent_uuid := "m-u" } .nil .nil],
        folders := .nil },
    reqt_folder := some
      { uuid := "tf-u", identifier := "-2", long_name := "Types",
        data_type_definitions := [],
        requirement_types :=
          [{ uuid := "told-u", identifier := "T_old",
             long_name := "T old", attribute_definitions := [] }] } }

/-- C7 fails on the code (code bug): in the same batch the
`RequirementType T_new` creator carries the promise id
`"RequirementType T_new"`, and the create branch references it under
that same token, but the modify branch for the matched work item emits
the bare token `"T_new"` (`decl.Promise(req_type_id)` without the
`RequirementType ` prefix), which no creator in the batch ever
fulfills. -/
theorem requirement_type_promise_token_mismatch :
    (trackerChangeRun c7_model c7_config c7_snapshot).1 = .ok ()
    ∧ (trackerChangeRun c7_model c7_config c7_snapshot).2.actions =
        [{ parent := .uuid "tf-u", modify := [],
           extend := [("requirement_types",
             [.rt { identifier := "T_new", long_name := "T new",
                    promise_id := "RequirementType T_new",
                    attribute_definitions := [] }])],
           delete := [] },
         { parent := .uuid "r-u",
           modify := [("type", .r (.promise "T_new"))],
           extend := [], delete := [] }]
    ∧ (TCM.run (yield_requirements_create_actions c7_ctx
          (.mk { id := "R9", long_name := "R9", text := none,
                 type := some "T_new", attributes := [] } none))
        TCState.init).1
        = .ok (ReqCreate.mk
            { long_name := "R9", identifier := "R9", text := none,
              attributes := [],
              type := some (.promise "RequirementType T_new") } .nil .nil,
            [])
    ∧ ("T_new" : String) ≠ "RequirementType T_new" := by
  refine ⟨rfl, rfl, rfl, by decide⟩

/-! ## Claim C5 — promise round-trip for a brand-new types folder -/

/-- A successful association-list lookup comes from a member. -/
theorem alGet_isSome_exists_mem {α : Type} (l : List (String × α))
    (k : String) (h : (alGet l k).isSome) :
    ∃ v, (k, v) ∈ l ∧ alGet l k = some v := by
  induction l with
  | nil => simp [alGet] at h
  | cons kv tl ih =>
      by_cases hk : kv.1 = k
      · refine ⟨kv.2, ?_, ?_⟩
        · have : kv = (k, kv.2) := Prod.ext hk rfl
          rw [← this]
          exact List.mem_cons_self kv tl
        · simp [alGet, hk]
      · rcases ih (by simpa [alGet, hk] using h) with ⟨v, hv, hget⟩
        exact ⟨v, List.mem_cons_of_mem kv hv, by simpa [alGet, hk] using hget⟩

/-- With no types folder and no data-type definition anywhere in the
model, an Enum attribute definition whose data type is declared in the
snapshot is created with the deterministic
`EnumerationDataTypeDefinition <id>` promise, and the state is
untouched. -/
theorem adca_enum_promise (ctx : TCCtx) (id : String)
    (item : SnapAttrDef) (rtid : String) (s : TCState)
    (hfolder : ctx.reqt_folder = none)
    (hscope : dtdefScope ctx.model none = [])
    (hEnum : item.type = "Enum")
    (hdecl : (alGet ctx.tracker.data_types id).isSome) :
    TCM.run (attribute_definition_create_action ctx id item rtid) s
      = (.ok
          { identifier := id ++ " " ++ rtid
            long_name := item.long_name
            data_type := some (.promise
              ("EnumerationDataTypeDefinition " ++ id))
            multi_valued := some item.multi_values.isSome
            type := "AttributeDefinitionEnumeration"
            promise_id := "AttributeDefinitionEnumeration "
              ++ (id ++ " " ++ rtid) }, s) := by
  rw [Option.isSome_iff_exists] at hdecl
  rcases hdecl with ⟨dt, hdt⟩
  simp [attribute_definition_create_action, hEnum, findDataTypeDef,
    hfolder, hscope, findUnique, hdt, TCM.run_bind, TCM.run_pure]

/-- `attribute_definition_create_action` either succeeds or raises
`InvalidAttributeDefinition`. -/
theorem adca_ok_or_iad (ctx : TCCtx) (id : String) (item : SnapAttrDef)
    (rtid : String) (s : TCState) :
    (∃ d s', TCM.run (attribute_definition_create_action ctx id item rtid)
        s = (.ok d, s'))
    ∨ (∃ msg s',
        TCM.run (attribute_definition_create_action ctx id item rtid) s
          = (.error (.invalidAttributeDefinition msg), s')) := by
  simp only [attribute_definition_create_action]
  by_cases hEnum : item.type = "Enum"
  · simp only [hEnum, if_pos]
    cases hdt : findDataTypeDef ctx.model ctx.reqt_folder id with
    | some d =>
        simp [hdt, TCM.run_bind, TCM.run_pure]
    | none =>
        cases hdecl : (alGet ctx.tracker.data_types id).isNone with
        | true =>
            right
            simp [hdt, hdecl, TCM.run_bind, TCM.run_pure, TCM.run_throw,
              TCM.run_modify]
        | false =>
            left
            simp [hdt, hdecl, TCM.run_bind, TCM.run_pure]
  · simp [hEnum, TCM.run_pure]

/-- `handle_user_error` always succeeds, appending the message to the
error list exactly when gathering is on. -/
theorem handle_user_error_run (ctx : TCCtx) (m : String) (s : TCState) :
    TCM.run (handle_user_error ctx m) s
      = (.ok (), if ctx.gather_logs then
          { s with errors := s.errors ++ [m] } else s) := by
  by_cases hg : ctx.gather_logs
  · simp [handle_user_error, hg, TCM.run_modify]
  · simp [handle_user_error, hg, TCM.run_pure]

/-- The attribute-definition creation fold always succeeds, only grows
its accumulator, and contains the promised-data-type descriptor of
every declared Enum attribute. -/
theorem adca_fold_spec (ctx : TCCtx) (rtln identifier : String)
    (hfolder : ctx.reqt_folder = none)
    (hscope : dtdefScope ctx.model none = [])
    (l : List (String × SnapAttrDef)) :
    ∀ (acc : List AttrDefCreate) (s : TCState),
    ∃ res s',
      TCM.run (l.foldlM
        (attribute_definition_create_step ctx rtln identifier) acc) s
        = (.ok res, s')
      ∧ (∀ x ∈ acc, x ∈ res)
      ∧ (∀ ad_id ad, (ad_id, ad) ∈ l → ad.type = "Enum" →
          (alGet ctx.tracker.data_types ad_id).isSome →
          ∃ adc ∈ res, adc.identifier = ad_id ++ " " ++ identifier
            ∧ adc.data_type = some (.promise
                ("EnumerationDataTypeDefinition " ++ ad_id))) := by
  induction l with
  | nil =>
      intro acc s
      exact ⟨acc, s, by simp [TCM.run_pure], fun x hx => hx,
        by intro ad_id ad h; simp at h⟩
  | cons kv tl ih =>
      intro acc s
      rcases adca_ok_or_iad ctx kv.1 kv.2 identifier s with
        ⟨d, s₁, hok⟩ | ⟨msg, s₁, herr⟩
      · have hstep : TCM.run
            (attribute_definition_create_step ctx rtln identifier acc kv) s
            = (.ok (acc ++ [d]), s₁) := by
          simp only [attribute_definition_create_step, TCM.run_tryCatch,
            TCM.run_bind, hok, TCM.run_pure]
        rcases ih (acc ++ [d]) s₁ with ⟨res, s', hrun, hgrow, hgood⟩
        refine ⟨res, s', ?_, ?_, ?_⟩
        · simp only [List.foldlM_cons, TCM.run_bind, hstep]
          exact hrun
        · intro x hx
          exact hgrow x (List.mem_append_left _ hx)
        · intro ad_id ad hmem hEnum hdecl
          rcases List.mem_cons.mp hmem with hhd | htl
          · have h1 : kv.1 = ad_id := (congrArg Prod.fst hhd).symm
            have h2 : kv.2 = ad := (congrArg Prod.snd hhd).symm
            have hd_eq := adca_enum_promise ctx kv.1 kv.2 identifier s
              hfolder hscope (by rw [h2]; exact hEnum)
              (by rw [h1]; exact hdecl)
            rw [hok] at hd_eq
            have hds : d =
                { identifier := kv.1 ++ " " ++ identifier
                  long_name := kv.2.long_name
                  data_type := some (.promise
                    ("EnumerationDataTypeDefinition " ++ kv.1))
                  multi_valued := some kv.2.multi_values.isSome
                  type := "AttributeDefinitionEnumeration"
                  promise_id := "AttributeDefinitionEnumeration "
                    ++ (kv.1 ++ " " ++ identifier) } := by
              have := congrArg Prod.fst hd_eq
              simpa using this
            refine ⟨d, hgrow d (List.mem_append_right _ (by simp)),
              ?_, ?_⟩
            · rw [hds, ← h1]
            · rw [hds, ← h1]
          · exact hgood ad_id ad htl hEnum hdecl
      · have hstep : TCM.run
            (attribute_definition_create_step ctx rtln identifier acc kv) s
            = (.ok acc,
              if ctx.gather_logs then
                { s₁ with errors := s₁.errors
                  ++ ["In RequirementType '" ++ rtln ++ "': " ++ msg] }
              else s₁) := by
          simp only [attribute_definition_create_step, TCM.run_tryCatch,
            TCM.run_bind, herr, TCM.run_pure, TCM.run_map,
            handle_user_error_run]
        set s₂ :=
          if ctx.gather_logs then
            { s₁ with errors := s₁.errors
              ++ ["In RequirementType '" ++ rtln ++ "': " ++ msg] }
          else s₁ with hs₂
        rcases ih acc s₂ with ⟨res, s', hrun, hgrow, hgood⟩
        refine ⟨res, s', ?_, hgrow, ?_⟩
        · simp only [List.foldlM_cons, TCM.run_bind, hstep]
          exact hrun
        · intro ad_id ad hmem hEnum hdecl
          rcases List.mem_cons.mp hmem with hhd | htl
          · exfalso
            have h1 : kv.1 = ad_id := (congrArg Prod.fst hhd).symm
            have h2 : kv.2 = ad := (congrArg Prod.snd hhd).symm
            have hd_eq := adca_enum_promise ctx kv.1 kv.2 identifier s
              hfolder hscope (by rw [h2]; exact hEnum)
              (by rw [h1]; exact hdecl)
            rw [herr] at hd_eq
            exact absurd (congrArg Prod.fst hd_eq) (by simp)
          · exact hgood ad_id ad htl hEnum hdecl

/-- `requirement_type_create_action` always succeeds, its descriptor
carries the `RequirementType <identifier>` promise, and it contains the
promised-data-type attribute definition of every declared Enum
attribute. -/
theorem rtca_spec (ctx : TCCtx) (identifier : String)
    (req_type : SnapReqType) (s : TCState)
    (hfolder : ctx.reqt_folder = none)
    (hscope : dtdefScope ctx.model none = []) :
    ∃ res s',
      TCM.run (requirement_type_create_action ctx identifier req_type) s
        = (.ok res, s')
      ∧ res.identifier = identifier
      ∧ res.promise_id = "RequirementType " ++ identifier
      ∧ (∀ ad_id ad, (ad_id, ad) ∈ req_type.attributes →
          ad.type = "Enum" →
          (alGet ctx.tracker.data_types ad_id).isSome →
          ∃ adc ∈ res.attribute_definitions,
            adc.identifier = ad_id ++ " " ++ identifier
            ∧ adc.data_type = some (.promise
                ("EnumerationDataTypeDefinition " ++ ad_id))) := by
  rcases adca_fold_spec ctx req_type.long_name identifier hfolder hscope
    req_type.attributes [] s with ⟨defs, s', hrun, _, hgood⟩
  refine ⟨{ identifier := identifier, long_name := req_type.long_name,
            promise_id := "RequirementType " ++ identifier,
            attribute_definitions := defs }, s', ?_, rfl, rfl, ?_⟩
  · simp only [requirement_type_create_action, TCM.run_bind, hrun,
      TCM.run_pure]
  · intro ad_id ad hmem hEnum hdecl
    exact hgood ad_id ad hmem hEnum hdecl

/-- The requirement-type creation fold always succeeds, only grows its
accumulator, and contains a fully-specified descriptor for every
snapshot requirement type. -/
theorem rtca_fold_spec (ctx : TCCtx)
    (hfolder : ctx.reqt_folder = none)
    (hscope : dtdefScope ctx.model none = [])
    (l : List (String × SnapReqType)) :
    ∀ (acc : List ReqTypeCreate) (s : TCState),
    ∃ res s',
      TCM.run (l.foldlM (requirement_type_create_step ctx) acc) s
        = (.ok res, s')
      ∧ (∀ x ∈ acc, x ∈ res)
      ∧ (∀ rt_id rt, (rt_id, rt) ∈ l →
          ∃ rtc ∈ res, rtc.identifier = rt_id
            ∧ rtc.promise_id = "RequirementType " ++ rt_id
            ∧ (∀ ad_id ad, (ad_id, ad) ∈ rt.attributes →
                ad.type = "Enum" →
                (alGet ctx.tracker.data_types ad_id).isSome →
                ∃ adc ∈ rtc.attribute_definitions,
                  adc.identifier = ad_id ++ " " ++ rt_id
                  ∧ adc.data_type = some (.promise
                      ("EnumerationDataTypeDefinition " ++ ad_id)))) := by
  induction l with
  | nil =>
      intro acc s
      exact ⟨acc, s, by simp [TCM.run_pure], fun x hx => hx,
        by intro rt_id rt h; simp at h⟩
  | cons kv tl ih =>
      intro acc s
      rcases rtca_spec ctx kv.1 kv.2 s hfolder hscope with
        ⟨rtc, s₁, hok, hid, hpid, hattrs⟩
      have hstep : TCM.run (requirement_type_create_step ctx acc kv) s
          = (.ok (acc ++ [rtc]), s₁) := by
        simp only [requirement_type_create_step, TCM.run_bind, hok,
          TCM.run_pure]
      rcases ih (acc ++ [rtc]) s₁ with ⟨res, s', hrun, hgrow, hgood⟩
      refine ⟨res, s', ?_, ?_, ?_⟩
      · simp only [List.foldlM_cons, TCM.run_bind, hstep]
        exact hrun
      · intro x hx
        exact hgrow x (List.mem_append_left _ hx)
      · intro rt_id rt hmem
        rcases List.mem_cons.mp hmem with hhd | htl
        · have h1 : kv.1 = rt_id := (congrArg Prod.fst hhd).symm
          have h2 : kv.2 = rt := (congrArg Prod.snd hhd).symm
          refine ⟨rtc, hgrow rtc (List.mem_append_right _ (by simp)),
            by rw [← h1]; exact hid, by rw [← h1]; exact hpid, ?_⟩
          intro ad_id ad hmem' hEnum hdecl
          rcases hattrs ad_id ad (by rw [h2]; exact hmem') hEnum hdecl
            with ⟨adc, hadc, hi, hdt⟩
          exact ⟨adc, hadc, by rw [← h1]; exact hi, hdt⟩
        · exact hgood rt_id rt htl

/-- C5: with no types folder in the model, every Enum-kind attribute
definition in the snapshot whose data type is declared in
`data_type_definitions` gets a create-descriptor whose `data_type` is a
`Promise` whose token is character-for-character the `promise_id` of
the create-descriptor that `data_type_create_action` emits for that
data-type definition inside the same types-folder create action. -/
theorem promise_round_trip (ctx : TCCtx) (s : TCState) (base : Action)
    (hfolder : ctx.reqt_folder = none)
    (hscope : dtdefScope ctx.model none = [])
    (rt_id : String) (rt : SnapReqType)
    (hrt : (rt_id, rt) ∈ ctx.tracker.requirement_types)
    (ad_id : String) (ad : SnapAttrDef)
    (had : (ad_id, ad) ∈ rt.attributes)
    (hEnum : ad.type = "Enum")
    (hdecl : (alGet ctx.tracker.data_types ad_id).isSome) :
    ∃ act s',
      TCM.run (requirement_types_folder_create_action ctx base) s
        = (.ok act, s')
      ∧ ∃ tf : TypesFolderCreate,
          alGet act.extend "requirement_types_folders"
            = some [ExtendEntry.tf tf]
          ∧ (∃ dtc ∈ tf.data_type_definitions, dtc.identifier = ad_id
              ∧ dtc.promise_id = "EnumerationDataTypeDefinition " ++ ad_id)
          ∧ (∃ rtc ∈ tf.requirement_types,
              ∃ adc ∈ rtc.attribute_definitions,
                adc.identifier = ad_id ++ " " ++ rt_id
                ∧ adc.data_type = some (.promise
                    ("EnumerationDataTypeDefinition " ++ ad_id))) := by
  rcases rtca_fold_spec ctx hfolder hscope ctx.tracker.requirement_types
    [] s with ⟨rts, s', hrun, _, hgood⟩
  refine ⟨{ base with extend := [("requirement_types_folders",
      [ExtendEntry.tf
        { long_name := "Types", identifier := "-2",
          data_type_definitions := (ctx.tracker.data_types.map
            (fun kv => data_type_create_action kv.1 kv.2)),
          requirement_types := rts }])] }, s', ?_, ?_⟩
  · simp only [requirement_types_folder_create_action, TCM.run_bind,
      hrun, TCM.run_pure]
  · refine ⟨⟨"Types", "-2",
        (ctx.tracker.data_types.map
          (fun kv => data_type_create_action kv.1 kv.2)), rts⟩,
      by simp [alGet], ?_, ?_⟩
    · rcases alGet_isSome_exists_mem ctx.tracker.data_types ad_id hdecl
        with ⟨dt, hdtmem, _⟩
      exact ⟨data_type_create_action ad_id dt,
        List.mem_map_of_mem (fun kv => data_type_create_action kv.1 kv.2)
          hdtmem, rfl, rfl⟩
    · rcases hgood rt_id rt hrt with ⟨rtc, hrtc, _, _, hattrs⟩
      rcases hattrs ad_id ad had hEnum hdecl with ⟨adc, hadc, hi, hdt⟩
      exact ⟨rtc, hrtc, adc, hadc, hi, hdt⟩

/-- Witness for C5 at the concrete S1 instance (types folder absent,
`T1`'s Enum attribute `Priority` with a declared data type). -/
theorem promise_round_trip_witness :
    ∃ act s',
      TCM.run (requirement_types_folder_create_action s1_ctx
          { parent := .uuid "m-uuid", modify := [], extend := [],
            delete := [] })
        TCState.init = (.ok act, s')
      ∧ ∃ tf : TypesFolderCreate,
          alGet act.extend "requirement_types_folders"
            = some [ExtendEntry.tf tf]
          ∧ (∃ dtc ∈ tf.data_type_definitions, dtc.identifier = "Priority"
              ∧ dtc.promise_id
                = "EnumerationDataTypeDefinition " ++ "Priority")
          ∧ (∃ rtc ∈ tf.requirement_types,
              ∃ adc ∈ rtc.attribute_definitions,
                adc.identifier = "Priority" ++ " " ++ "T1"
                ∧ adc.data_type = some (.promise
                    ("EnumerationDataTypeDefinition " ++ "Priority"))) := by
  exact promise_round_trip s1_ctx TCState.init
    { parent := .uuid "m-uuid", modify := [], extend := [], delete := [] }
    rfl rfl "T1"
    { long_name := "T1"
      attributes := [("Priority",
        { long_name := "Priority", type := "Enum",
          multi_values := none })] }
    (by decide) "Priority"
    { long_name := "Priority", type := "Enum", multi_values := none }
    (by decide) rfl (by decide)

/-! ## Claim C4 — a type change rebuilds the attribute set -/

/-- `alGet` after `alSet` at the same key. -/
theorem alGet_alSet_self {α : Type} (l : List (String × α)) (k : String)
    (v : α) : alGet (alSet l k v) k = some v := by
  induction l with
  | nil => simp [alSet, alGet]
  | cons kv tl ih =>
      by_cases hk : kv.1 = k
      · simp [alSet, alGet, hk]
      · simp [alSet, alGet, hk, ih]

/-- Running a lifted stateless computation. -/
theorem TCM.run_liftE {α : Type} (x : Except PyErr α) (s : TCState) :
    TCM.run (liftE x) s = (x, s) := by
  cases x <;> rfl

/-- `alSet` never returns the empty list. -/
theorem alSet_ne_nil {α : Type} (l : List (String × α)) (k : String)
    (v : α) : alSet l k v ≠ [] := by
  cases l with
  | nil => simp [alSet]
  | cons kv tl =>
      by_cases hk : kv.1 = k <;> simp [alSet, hk]

/-- `Except` bind on a success. -/
theorem except_bind_ok {α β : Type} (a : α)
    (f : α → Except PyErr β) : (Except.ok a >>= f) = f a := rfl

/-- `Except` bind on an error. -/
theorem except_bind_err {α β : Type} (e : PyErr)
    (f : α → Except PyErr β) :
    ((Except.error e : Except PyErr α) >>= f) = .error e := rfl

/-- `throw` followed by anything in `Except` is the error. -/
theorem except_throw_bind {α β : Type} (e : PyErr)
    (f : α → Except PyErr β) :
    ((throw e : Except PyErr α) >>= f) = .error e := rfl

/-- `throw` in `Except` is `Except.error`. -/
theorem except_throw_eq_error {α : Type} (e : PyErr) :
    (throw e : Except PyErr α) = .error e := rfl

/-- `pure` in `Except` is `Except.ok`. -/
theorem except_pure_eq_ok {α : Type} (a : α) :
    (pure a : Except PyErr α) = .ok a := rfl

/-- `check_attribute` under a known requirement type: `break` never
happens when the type is non-empty, blacklisted attributes `continue`,
undeclared attributes `continue` with a collected error, declared ones
pass. -/
theorem check_attribute_spec (ctx : TCCtx) (k : String) (v : SnapValue)
    (t iid : String) (rt : SnapReqType) (s : TCState)
    (htne : t ≠ "")
    (hrt : alGet ctx.tracker.requirement_types t = some rt) :
    TCM.run (check_attribute ctx k v t iid) s
      = (.ok (if blacklisted k v then .cont
              else if (alGet rt.attributes k).isNone then .cont
              else .ok),
         if !blacklisted k v && (alGet rt.attributes k).isNone then
           (if ctx.gather_logs then
             { s with errors := s.errors
               ++ ["Invalid workitem '" ++ iid
                 ++ "'. Invalid field found: field identifier '" ++ k
                 ++ "' not defined in attributes of requirement type '"
                 ++ t ++ "'"] }
            else s)
         else s) := by
  by_cases hb : blacklisted k v
  · simp [check_attribute, htne, hb, TCM.run_pure]
  · cases hdk : alGet rt.attributes k with
    | none =>
        simp [check_attribute, htne, hb, hrt, hdk, TCM.run_bind,
          TCM.run_pure, TCM.run_map, handle_user_error_run]
    | some adef =>
        simp [check_attribute, htne, hb, hrt, hdk, TCM.run_pure]

/-- A successful validity check fixes the builder's shape. -/
theorem cavv_ok_shape (ctx : TCCtx) (k : String) (v : SnapValue)
    (t : String) (rt : SnapReqType) (adef : SnapAttrDef)
    (b : AttributeValueBuilder)
    (hrt : alGet ctx.tracker.requirement_types t = some rt)
    (hadef : alGet rt.attributes k = some adef)
    (hb : check_attribute_value_is_valid ctx k v t = .ok b) :
    b.deftype = adef.type ∧ b.value = v
      ∧ (adef.type = "Enum" → (∃ xs, v = .vlist xs) ∧ b.key = "values") := by
  simp only [check_attribute_value_is_valid, hrt, hadef] at hb
  by_cases hm : matchesDefaultType adef.type v
  · by_cases he : adef.type = "Enum"
    · rw [he] at hm hb
      cases hdt : alGet ctx.tracker.data_types k with
      | none => rw [hdt] at hb; simp [hm] at hb
      | some dt =>
          rw [hdt] at hb
          cases v with
          | vlist xs =>
              simp [hm] at hb
              split at hb
              · simp at hb
              · have hbe :
                    b = (⟨"Enum", "values", SnapValue.vlist xs⟩
                      : AttributeValueBuilder) :=
                  (Except.ok.inj hb).symm
                subst hbe
                exact ⟨he.symm, rfl, fun _ => ⟨⟨xs, rfl⟩, rfl⟩⟩
          | int n => simp [matchesDefaultType] at hm
          | float q => simp [matchesDefaultType] at hm
          | str x => simp [matchesDefaultType] at hm
          | bool c => simp [matchesDefaultType] at hm
          | date n => simp [matchesDefaultType] at hm
          | pynone => simp [matchesDefaultType] at hm
    · have hb' : (pure (⟨adef.type, "value", v⟩ : AttributeValueBuilder)
          : Except PyErr AttributeValueBuilder) = .ok b := by
        simpa [hm, he] using hb
      have hbe : b = (⟨adef.type, "value", v⟩ : AttributeValueBuilder) :=
        (Except.ok.inj hb').symm
      subst hbe
      exact ⟨rfl, rfl, fun h => absurd h he⟩
  · simp [hm, except_throw_bind] at hb

/-- A failing validity check under declared schema entries raises
`InvalidFieldValue`. -/
theorem cavv_err_shape (ctx : TCCtx) (k : String) (v : SnapValue)
    (t : String) (rt : SnapReqType) (adef : SnapAttrDef) (e : PyErr)
    (hrt : alGet ctx.tracker.requirement_types t = some rt)
    (hadef : alGet rt.attributes k = some adef)
    (hb : check_attribute_value_is_valid ctx k v t = .error e) :
    ∃ m, e = .invalidFieldValue m := by
  simp only [check_attribute_value_is_valid, hrt, hadef] at hb
  by_cases hm : matchesDefaultType adef.type v
  · by_cases he : adef.type = "Enum"
    · rw [he] at hm hb
      cases hdt : alGet ctx.tracker.data_types k with
      | none =>
          rw [hdt] at hb
          have hb' : (throw (PyErr.invalidFieldValue
              ("Invalid field found: " ++ pyReprStr k
                ++ ". Missing its datatype definition in `data_types`."))
              : Except PyErr AttributeValueBuilder) = .error e := by
            simpa [hm] using hb
          exact ⟨_, (Except.error.inj hb').symm⟩
      | some dt =>
          rw [hdt] at hb
          cases v with
          | vlist xs =>
              simp [hm] at hb
              split at hb
              · exact ⟨_, (Except.error.inj hb).symm⟩
              · exact Except.noConfusion hb
          | int n => simp [matchesDefaultType] at hm
          | float q => simp [matchesDefaultType] at hm
          | str x => simp [matchesDefaultType] at hm
          | bool c => simp [matchesDefaultType] at hm
          | date n => simp [matchesDefaultType] at hm
          | pynone => simp [matchesDefaultType] at hm
    · have hb' : (pure (⟨adef.type, "value", v⟩ : AttributeValueBuilder)
          : Except PyErr AttributeValueBuilder) = .error e := by
        simpa [hm, he] using hb
      exact absurd hb' (fun h => Except.noConfusion h)
  · have hb' : (throw (PyErr.invalidFieldValue
        ("Invalid field found: " ++ pyReprStr k
          ++ ". Not matching expected types: " ++ pyReprValue v
          ++ " should be of type " ++ pyReprStr (defaultTypeName adef.type)))
        : Except PyErr AttributeValueBuilder) = .error e := by
      simpa [hm] using hb
    exact ⟨_, (Except.error.inj hb').symm⟩

/-- Under a declared requirement type and a declared attribute, any
error raised by the create core is `InvalidFieldValue`. -/
theorem avc_core_err_ifv (ctx : TCCtx) (ev faulty : List String)
    (k : String) (v : SnapValue) (t : String) (rt : SnapReqType)
    (adef : SnapAttrDef) (e : PyErr)
    (hrt : alGet ctx.tracker.requirement_types t = some rt)
    (hadef : alGet rt.attributes k = some adef)
    (hcore : attribute_value_create_core ctx ev faulty k v t = .error e) :
    ∃ m, e = .invalidFieldValue m := by
  cases hb : check_attribute_value_is_valid ctx k v t with
  | error f =>
      have hfe : f = e := by
        simpa [attribute_value_create_core, hb, except_bind_err] using hcore
      exact hfe ▸ cavv_err_shape ctx k v t rt adef f hrt hadef hb
  | ok b =>
      rcases cavv_ok_shape ctx k v t rt adef b hrt hadef hb with
        ⟨hdeftype, hvalue, henum⟩
      have h2 := hcore
      by_cases he : b.deftype = "Enum"
      · rcases (henum (hdeftype ▸ he)).1 with ⟨xs, hxs⟩
        rw [hxs] at hvalue
        simp only [attribute_value_create_core, hb, except_bind_ok, he,
          hvalue, if_true, ite_true, except_pure_eq_ok] at h2
        simp [except_bind_ok, except_pure_eq_ok, except_throw_bind,
          except_throw_eq_error, except_bind_err] at h2
        split at h2
        · split at h2
          · exact ⟨_, (Except.error.inj h2).symm⟩
          · exact Except.noConfusion h2
        · exact Except.noConfusion h2
      · simp only [attribute_value_create_core, hb, except_bind_ok, he,
          if_false, ite_false, except_pure_eq_ok] at h2
        simp [he, except_bind_ok, except_pure_eq_ok, except_throw_bind,
          except_throw_eq_error, except_bind_err] at h2
        split at h2
        · split at h2
          · exact ⟨_, (Except.error.inj h2).symm⟩
          · exact Except.noConfusion h2
        · exact Except.noConfusion h2

/-- `alSet` never yields an empty association list. -/
theorem alSet_isEmpty {α : Type} (l : List (String × α)) (k : String)
    (v : α) : (alSet l k v).isEmpty = false := by
  cases h : alSet l k v with
  | nil => exact absurd h (alSet_ne_nil l k v)
  | cons a l' => rfl

/-- Running `try_create_attribute_value`: a successful create core
yields its descriptor, an `InvalidFieldValue` is collected as a
per-item error, anything else propagates. -/
theorem try_create_run (ctx : TCCtx) (id : String) (value : SnapValue)
    (t iid : String) (s : TCState) :
    TCM.run (try_create_attribute_value ctx id value t iid) s
      = match attribute_value_create_core ctx s.ev_deletions
          s.faulty_attribute_definitions id value t with
        | .ok d => (.ok (some d), s)
        | .error (.invalidFieldValue m) =>
            (.ok none, if ctx.gather_logs then
              { s with errors := s.errors
                ++ ["Invalid workitem '" ++ iid ++ "'. " ++ m] } else s)
        | .error e => (.error e, s) := by
  cases hcore : attribute_value_create_core ctx s.ev_deletions
      s.faulty_attribute_definitions id value t with
  | ok d =>
      simp [try_create_attribute_value, attribute_value_create_action,
        TCM.run_tryCatch, TCM.run_bind, TCM.run_get, TCM.run_liftE,
        TCM.run_map, TCM.run_pure, hcore]
  | error e =>
      cases e <;>
        simp [try_create_attribute_value, attribute_value_create_action,
          TCM.run_tryCatch, TCM.run_bind, TCM.run_get, TCM.run_liftE,
          TCM.run_map, TCM.run_pure, TCM.run_throw, hcore,
          handle_user_error_run]

/-- The mod-branch attribute loop in rebuild mode (after a type
change): it always succeeds, emits no attribute modifications, only
appends collected error messages to the state, and its creations
contain the descriptor of every non-blacklisted snapshot attribute
whose create core succeeds. -/
theorem modAttributesLoop_typeChanged (ctx : TCCtx) (req : MWorkItem)
    (t iid : String) (rt : SnapReqType)
    (htne : t ≠ "")
    (hrt : alGet ctx.tracker.requirement_types t = some rt) :
    ∀ (attrs : List (String × SnapValue)) (s : TCState),
    ∃ cs L,
      TCM.run (modAttributesLoop ctx req attrs t iid true) s
        = (.ok (cs, []), { s with errors := s.errors ++ L })
      ∧ ∀ k v d, (k, v) ∈ attrs → blacklisted k v = false →
          attribute_value_create_core ctx s.ev_deletions
            s.faulty_attribute_definitions k v t = .ok d → d ∈ cs := by
  intro attrs
  induction attrs with
  | nil =>
      intro s
      refine ⟨[], [], ?_, by simp⟩
      simp [modAttributesLoop, TCM.run_pure]
  | cons kv rest ih =>
      intro s
      obtain ⟨k, v⟩ := kv
      have hca := check_attribute_spec ctx k v t iid rt s htne hrt
      by_cases hb : blacklisted k v
      · obtain ⟨cs, L, hrun, hmem⟩ := ih s
        refine ⟨cs, L, ?_, ?_⟩
        · simp only [modAttributesLoop, TCM.run_bind]
          rw [hca]
          simp only [hb, ite_true, Bool.not_true, Bool.false_and,
            Bool.false_eq_true, ite_false]
          exact hrun
        · intro k' v' d hkv hbl hcd
          rcases List.mem_cons.mp hkv with heq | htail
          · rw [Prod.mk.injEq] at heq
            obtain ⟨rfl, rfl⟩ := heq
            rw [hb] at hbl
            exact Bool.noConfusion hbl
          · exact hmem k' v' d htail hbl hcd
      · cases hdk : alGet rt.attributes k with
        | none =>
            have hnotok : ∀ d, attribute_value_create_core ctx
                s.ev_deletions s.faulty_attribute_definitions k v t
                  ≠ .ok d := by
              intro d hcd
              simp [attribute_value_create_core,
                check_attribute_value_is_valid, hrt, hdk,
                except_throw_bind, except_bind_err] at hcd
            by_cases hg : ctx.gather_logs
            · obtain ⟨cs, L, hrun, hmem⟩ := ih
                { s with errors := s.errors
                  ++ ["Invalid workitem '" ++ iid
                    ++ "'. Invalid field found: field identifier '" ++ k
                    ++ "' not defined in attributes of requirement type '"
                    ++ t ++ "'"] }
              refine ⟨cs,
                ("Invalid workitem '" ++ iid
                  ++ "'. Invalid field found: field identifier '" ++ k
                  ++ "' not defined in attributes of requirement type '"
                  ++ t ++ "'") :: L, ?_, ?_⟩
              · simp only [modAttributesLoop, TCM.run_bind]
                rw [hca]
                simp [hb, hdk, hg, hrun, TCM.run_bind, TCM.run_pure,
                  List.append_assoc]
              · intro k' v' d hkv hbl hcd
                rcases List.mem_cons.mp hkv with heq | htail
                · rw [Prod.mk.injEq] at heq
                  obtain ⟨rfl, rfl⟩ := heq
                  exact absurd hcd (hnotok d)
                · exact hmem k' v' d htail hbl hcd
            · obtain ⟨cs, L, hrun, hmem⟩ := ih s
              refine ⟨cs, L, ?_, ?_⟩
              · simp only [modAttributesLoop, TCM.run_bind]
                rw [hca]
                simp [hb, hdk, hg, hrun, TCM.run_bind, TCM.run_pure]
              · intro k' v' d hkv hbl hcd
                rcases List.mem_cons.mp hkv with heq | htail
                · rw [Prod.mk.injEq] at heq
                  obtain ⟨rfl, rfl⟩ := heq
                  exact absurd hcd (hnotok d)
                · exact hmem k' v' d htail hbl hcd
        | some adef =>
            have htc := try_create_run ctx k v t iid s
            cases hcore : attribute_value_create_core ctx s.ev_deletions
                s.faulty_attribute_definitions k v t with
            | ok d₀ =>
                rw [hcore] at htc
                obtain ⟨cs, L, hrun, hmem⟩ := ih s
                refine ⟨d₀ :: cs, L, ?_, ?_⟩
                · simp only [modAttributesLoop, TCM.run_bind]
                  rw [hca]
                  simp [hb, hdk, htc, hrun, TCM.run_bind, TCM.run_map,
                    TCM.run_pure]
                · intro k' v' d hkv hbl hcd
                  rcases List.mem_cons.mp hkv with heq | htail
                  · rw [Prod.mk.injEq] at heq
                    obtain ⟨rfl, rfl⟩ := heq
                    have hd : d₀ = d := Except.ok.inj (hcore.symm.trans hcd)
                    exact hd ▸ List.mem_cons_self d₀ cs
                  · exact List.mem_cons_of_mem d₀ (hmem k' v' d htail hbl hcd)
            | error e =>
                obtain ⟨m, rfl⟩ := avc_core_err_ifv ctx s.ev_deletions
                  s.faulty_attribute_definitions k v t rt adef e hrt hdk
                  hcore
                rw [hcore] at htc
                by_cases hg : ctx.gather_logs
                · obtain ⟨cs, L, hrun, hmem⟩ := ih
                    { s with errors := s.errors
                      ++ ["Invalid workitem '" ++ iid ++ "'. " ++ m] }
                  refine ⟨cs,
                    ("Invalid workitem '" ++ iid ++ "'. " ++ m) :: L,
                    ?_, ?_⟩
                  · simp only [modAttributesLoop, TCM.run_bind]
                    rw [hca]
                    simp [hb, hdk, hg, htc, hrun, TCM.run_bind,
                      TCM.run_map, TCM.run_pure, List.append_assoc]
                  · intro k' v' d hkv hbl hcd
                    rcases List.mem_cons.mp hkv with heq | htail
                    · rw [Prod.mk.injEq] at heq
                      obtain ⟨rfl, rfl⟩ := heq
                      rw [hcore] at hcd
                      exact Except.noConfusion hcd
                    · exact hmem k' v' d htail hbl hcd
                · obtain ⟨cs, L, hrun, hmem⟩ := ih s
                  refine ⟨cs, L, ?_, ?_⟩
                  · simp only [modAttributesLoop, TCM.run_bind]
                    rw [hca]
                    simp [hb, hdk, hg, htc, hrun, TCM.run_bind,
                      TCM.run_map, TCM.run_pure]
                  · intro k' v' d hkv hbl hcd
                    rcases List.mem_cons.mp hkv with heq | htail
                    · rw [Prod.mk.injEq] at heq
                      obtain ⟨rfl, rfl⟩ := heq
                      rw [hcore] at hcd
                      exact Except.noConfusion hcd
                    · exact hmem k' v' d htail hbl hcd

/-- One-step unfolding of the mod branch of the tree walk on a work
item (definitional). -/
theorem yield_requirements_mod_actions_mk (ctx : TCCtx) (req : MWorkItem)
    (core : SnapItemCore) (parent : Option Ref) :
    yield_requirements_mod_actions ctx req (.mk core none) parent
      = (do

    let mods₀ := compare_simple_attributes req core
    let req_type_id := core.type.getD ""
    let (mods, attributes_deletions₀) ←
      if req_type_id ≠ req.core.type_id then do
        if req_type_id ≠ ""
            && (alGet ctx.tracker.requirement_types req_type_id).isNone
        then
          throw (.invalidWorkItemType
            ("Faulty workitem in snapshot: Unknown workitem-type "
              ++ pyReprStr req_type_id))
        let typeRef :=
          match findReqType ctx.model ctx.reqt_folder req_type_id with
          | none => Ref.promise req_type_id
          | some rt => Ref.uuid rt.uuid
        pure (alSet mods₀ "type" (MVal.r typeRef),
          req.core.attributes.map (fun a => Ref.uuid a.uuid))
      else
        pure (mods₀, [])
    let typeChanged := (alGet mods "type").isSome
    let (attributes_creations, attributes_modifications) ←
      modAttributesLoop ctx req core.attributes req_type_id core.id
        typeChanged
    let attribute_definition_ids := core.attributes.map
      (fun kv => kv.1 ++ " " ++ req_type_id)
    let attributes_deletions :=
      if attributes_deletions₀.isEmpty then
        (req.core.attributes.filter (fun a =>
          !attribute_definition_ids.contains a.definition)).map
          (fun a => Ref.uuid a.uuid)
      else attributes_deletions₀
    let parentRef := parent.getD (Ref.uuid ctx.req_module.uuid)
    let parentMatches :=
      match parentRef with
      | .uuid u => req.core.parent_uuid = u
      | .promise _ => false
    if !parentMatches then do
      addLocationChanged req.core.identifier
      invalidate_deletion req
    let (extendGroups, deleteGroups, childMods, staged) ←
      if req.core.folder then do
        let (child_req_ids, child_folder_ids, cr, cf, childMods) ←
          pure ([], [], [], [], [])
        let s ← get
        let fold_dels := make_requirement_delete_actions req
          (child_folder_ids ++ s.location_changed) "folders"
        let req_dels := make_requirement_delete_actions req
          (child_req_ids ++ s.location_changed) "requirements"
        let extendGroups :=
          (if attributes_creations.isEmpty then []
           else [("attributes",
             attributes_creations.map ExtendEntry.attr)])
          ++ (if cr.isEmpty then []
              else [("requirements", cr.map ExtendEntry.child)])
          ++ (if cf.isEmpty then []
              else [("folders", cf.map ExtendEntry.child)])
        let deleteGroups :=
          (if attributes_deletions.isEmpty then []
           else [("attributes", attributes_deletions)])
          ++ (if fold_dels.isEmpty then [] else [("folders", fold_dels)])
          ++ (if req_dels.isEmpty then []
              else [("requirements", req_dels)])
        pure (extendGroups, deleteGroups, childMods, req_dels ++ fold_dels)
      else
        pure
          ((if attributes_creations.isEmpty then []
            else [("attributes",
              attributes_creations.map ExtendEntry.attr)]),
           (if attributes_deletions.isEmpty then []
            else [("attributes", attributes_deletions)]),
           [], [])
    let base : Action :=
      { parent := .uuid req.core.uuid
        modify := mods
        extend := extendGroups
        delete := deleteGroups }
    if !staged.isEmpty then
      modify fun s =>
        { s with
          req_deletions := staged.foldl
            (fun acc r => match r with
              | Ref.uuid u => alSet acc u req.core.uuid
              | Ref.promise _ => acc)
            s.req_deletions
          del_map := alSet s.del_map req.core.uuid deleteGroups
          staged_core := alSet s.staged_core req.core.uuid base }
    let own := if !base.parentOnly then [base] else []
    pure (own ++ attributes_modifications ++ childMods))
  := rfl

set_option maxHeartbeats 2000000 in
/-- C4: for a matched requirement whose snapshot type identifier
differs from its current type, the emitted action deletes every one of
its pre-existing attribute values by UUID reference and creates a
descriptor for every valid, non-blacklisted attribute of the snapshot
item. -/
theorem type_change_rebuilds_attributes (ctx : TCCtx) (req : MWorkItem)
    (core : SnapItemCore) (t : String) (rt : SnapReqType) (s : TCState)
    (hT : core.type = some t)
    (htne : t ≠ "")
    (hdiff : t ≠ req.core.type_id)
    (hrt : alGet ctx.tracker.requirement_types t = some rt)
    (hfolder : req.core.folder = false)
    (hparent : req.core.parent_uuid = ctx.req_module.uuid) :
    ∃ (act : Action) (s' : TCState),
      TCM.run (yield_requirements_mod_actions ctx req
        (.mk core none) none) s = (.ok [act], s')
      ∧ (∀ a ∈ req.core.attributes,
          ∃ g, ("attributes", g) ∈ act.delete ∧ Ref.uuid a.uuid ∈ g)
      ∧ (∀ k v d, (k, v) ∈ core.attributes → blacklisted k v = false →
          attribute_value_create_core ctx s.ev_deletions
            s.faulty_attribute_definitions k v t = .ok d →
          ∃ g, ("attributes", g) ∈ act.extend ∧ ExtendEntry.attr d ∈ g) := by
  obtain ⟨cs, L, hloop, hmem⟩ := modAttributesLoop_typeChanged ctx req t
    core.id rt htne hrt core.attributes s
  refine ⟨Action.mk (Ref.uuid req.core.uuid)
      (alSet (compare_simple_attributes req core) "type"
        (MVal.r (match findReqType ctx.model ctx.reqt_folder t with
          | none => Ref.promise t
          | some rt' => Ref.uuid rt'.uuid)))
      (if cs = [] then [] else [("attributes", List.map ExtendEntry.attr cs)])
      (if (if req.core.attributes = [] then
            List.map (fun a => Ref.uuid a.uuid)
              (List.filter (fun a => !decide (a.definition
                ∈ List.map (fun kv => kv.1 ++ " " ++ t) core.attributes))
                req.core.attributes)
          else List.map (fun a => Ref.uuid a.uuid) req.core.attributes)
          = [] then []
       else [("attributes",
          if req.core.attributes = [] then
            List.map (fun a => Ref.uuid a.uuid)
              (List.filter (fun a => !decide (a.definition
                ∈ List.map (fun kv => kv.1 ++ " " ++ t) core.attributes))
                req.core.attributes)
          else List.map (fun a => Ref.uuid a.uuid) req.core.attributes)]),
    { s with errors := s.errors ++ L }, ?_, ?_, ?_⟩
  · rw [yield_requirements_mod_actions_mk]
    simp only [hT, Option.getD_some]
    simp [hdiff, htne, hrt, hparent, hfolder, alGet_alSet_self,
      alSet_isEmpty, Action.parentOnly, TCM.run_bind, TCM.run_map,
      TCM.run_pure, TCM.run_throw]
    rw [hloop]
    simp [TCM.run_bind, TCM.run_pure, alSet_isEmpty, Action.parentOnly,
      alSet_ne_nil]
  · intro a ha
    have hne : req.core.attributes ≠ [] := by
      intro h
      rw [h] at ha
      exact absurd ha (List.not_mem_nil a)
    refine ⟨req.core.attributes.map (fun x => Ref.uuid x.uuid), ?_,
      List.mem_map_of_mem _ ha⟩
    simp [hne]
  · intro k v d hkv hbl hcd
    have hd := hmem k v d hkv hbl hcd
    refine ⟨cs.map ExtendEntry.attr, ?_,
      List.mem_map_of_mem ExtendEntry.attr hd⟩
    simp [List.ne_nil_of_mem hd]

/-- C4 witness scenario: a requirement typed `T1` with one existing
attribute value, re-typed `T2` by the snapshot with one declared
integer attribute. -/
def c4_rt : SnapReqType :=
  ⟨"System Requirement", [("Capacity", ⟨"Capacity", "Integer", none⟩)]⟩

/-- C4 witness scenario: the snapshot tracker. -/
def c4_tracker : TrackerSnapshot :=
  ⟨some "PROJ", some "Tracker", [], [("T2", c4_rt)], []⟩

/-- C4 witness scenario: the matched model work item. -/
def c4_req : MWorkItem :=
  .mk ⟨"r-1", "REQ-1", "Req", "text", "T1",
    [⟨"av-1", "Capacity T1", false, .int 5, []⟩], false, "m-1"⟩ .nil .nil

/-- C4 witness scenario: the requirements module. -/
def c4_module : MModule :=
  ⟨"m-1", "PROJ", "Tracker", [], .cons c4_req .nil, .nil⟩

/-- C4 witness scenario: the model. -/
def c4_model : MelodyModel := ⟨"<MelodyModel>", [c4_module]⟩

/-- C4 witness scenario: the tracker-change context. -/
def c4_ctx : TCCtx := ⟨c4_model, c4_tracker, true, c4_module, none⟩

/-- C4 witness scenario: the snapshot item core carrying the new
type. -/
def c4_core : SnapItemCore :=
  ⟨"REQ-1", "Req", none, some "T2", [("Capacity", .int 7)]⟩

/-- Witness: the rebuild theorem applies to the concrete `T1 → T2`
re-typing scenario. -/
theorem type_change_rebuilds_attributes_witness :
    ∃ (act : Action) (s' : TCState),
      TCM.run (yield_requirements_mod_actions c4_ctx c4_req
        (.mk c4_core none) none) TCState.init = (.ok [act], s')
      ∧ (∀ a ∈ c4_req.core.attributes,
          ∃ g, ("attributes", g) ∈ act.delete ∧ Ref.uuid a.uuid ∈ g)
      ∧ (∀ k v d, (k, v) ∈ c4_core.attributes → blacklisted k v = false →
          attribute_value_create_core c4_ctx TCState.init.ev_deletions
            TCState.init.faulty_attribute_definitions k v "T2" = .ok d →
          ∃ g, ("attributes", g) ∈ act.extend ∧ ExtendEntry.attr d ∈ g) :=
  type_change_rebuilds_attributes c4_ctx c4_req c4_core "T2" c4_rt
    TCState.init rfl (by decide) (by decide) rfl rfl rfl

/-- With nothing staged, `invalidate_deletion` is a no-op (the
`KeyError` path). -/
theorem invalidate_deletion_noop (req : MWorkItem) (s : TCState)
    (h : s.req_deletions = []) :
    TCM.run (invalidate_deletion req) s = (.ok (), s) := by
  simp [invalidate_deletion, TCM.run_tryCatch, TCM.run_bind, TCM.run_get,
    h, alGet, TCM.run_throw, TCM.run_pure]

end RMBridge
